import Mathlib

/-!
Shallow embedding of the quiz session engine of the telegram-archive-bot
repository: the data model and the operations of `src/quiz/state_manager.py`
(class `QuizStateManager`) and `src/quiz/quiz_manager.py` (class `QuizManager`),
together with theorems settling the claims about them.

Modelling conventions:
* The two JSON documents (per-chat session file and the cross-session
  leaderboard file) are modelled as insertion-ordered association lists,
  matching Python dict semantics (keys unique, insertion order preserved,
  updates keep the position of an existing key, new keys are appended).
* Keys are the integer chat and user ids; Python uses `str(id)` as the key,
  and `str` is injective on integers, so the integer key is behaviorally
  identical.
* A stored dict field that every reader accesses through `.get(key, default)`
  is modelled as a plain field holding the default when the key would be
  absent (absence and the default value are indistinguishable to all the
  embedded code paths).  Leaderboard entries are the exception: the code
  writes the win counter under two different keys in different methods, so
  those counters are modelled as `Option` fields recording key presence.
* `_write_data` / `_write_leaderboard_data` can raise on disk failure; each
  writing operation therefore takes a `writeOk : Bool` parameter telling
  whether its underlying file write succeeds, and the embedded control flow
  reproduces the `try/except` structure of the source.  Python exceptions
  that propagate are modelled with `Except PyErr`.
* `datetime.now().isoformat()` is modelled by threading an opaque `now`
  string.
* Python list indexing accepts negative indices (resolved from the end) and
  raises `IndexError` otherwise; `pyResolve` reproduces this.
* The duplicate method definitions in `state_manager.py` (for example the
  three definitions of `get_persistent_leaderboard`) are resolved the way
  Python resolves them: only the last definition in the class body exists at
  runtime, and only that one is embedded here.
* The float-valued `win_rate` entry of a leaderboard row (Python `round` on
  a float) is not modelled; no embedded code path reads it.
-/

/-- Python exception classes that the embedded code can raise. -/
inductive PyErr where
  | ioError
  | keyError
  | typeError
deriving Repr, DecidableEq

/-- One element of a session question list: immutable content
(`question_text`, `options`, `correct_answer`) plus mutable resolution state
(`answered`, `answered_by`, `attempted_by`), as produced by
`QuizStateManager._format_question`. -/
structure Question where
  question_text : String
  options : List String
  correct_answer : String
  answered : Bool
  answered_by : Option String
  attempted_by : List Int
deriving Repr, DecidableEq, Inhabited

/-- One value of the session `scores` mapping. -/
structure ScoreEntry where
  username : String
  points : Int
deriving Repr, DecidableEq

/-- A stored session document (one value of the `quiz_data.json` top-level
dict).  `mode` and `creator_id` are read with defaults `"multi"` and `None`
everywhere, so absence of the keys coincides with those values. -/
structure QuizState where
  active : Bool
  subject : String
  difficulty : String
  questions : List Question
  current_question : Nat
  scores : List (Int × ScoreEntry)
  created_at : String
  message_ids : List Int
  main_message_id : Option Int
  mode : String
  creator_id : Option Int
deriving Repr, DecidableEq

/-- One value of the persistent leaderboard dict.  `record_quiz_win` writes
the keys `quiz_wins` / `total_points` / `quizzes_participated`, while
`update_participation_stats` initializes a key `wins` instead and the
effective `get_persistent_leaderboard` reads `wins`; the counters are
`Option` so that key absence is representable. -/
structure LBEntry where
  username : String
  quiz_wins : Option Int
  total_points : Option Int
  quizzes_participated : Option Int
  wins : Option Int
  last_win_date : Option String
deriving Repr, DecidableEq

/-- The whole persisted state: the sessions document (`quiz_data.json`) and
the leaderboard document (`quiz_leaderboard.json`). -/
structure Store where
  sessions : List (Int × QuizState)
  leaderboard : List (Int × LBEntry)
deriving Repr, DecidableEq

/-! Association list helpers reproducing Python dict access on the
insertion-ordered key/value list. -/

/-- Python `d.get(k)` / `k in d`: first entry with the given key. -/
def alGet {α : Type} (l : List (Int × α)) (k : Int) : Option α :=
  match l with
  | [] => none
  | p :: t => if p.1 = k then some p.2 else alGet t k

/-- Python `d[k] = v`: replace the value in place if the key exists,
otherwise append the new pair. -/
def alSet {α : Type} (l : List (Int × α)) (k : Int) (v : α) : List (Int × α) :=
  match l with
  | [] => [(k, v)]
  | p :: t => if p.1 = k then (k, v) :: t else p :: alSet t k v

/-- Python `del d[k]`. -/
def alRemove {α : Type} (l : List (Int × α)) (k : Int) : List (Int × α) :=
  match l with
  | [] => []
  | p :: t => if p.1 = k then t else p :: alRemove t k

/-- Python list index resolution: a negative index counts from the end;
`none` models an `IndexError`. -/
def pyResolve (len : Nat) (i : Int) : Option Nat :=
  let r : Int := if i < 0 then (len : Int) + i else i
  if 0 ≤ r ∧ r < (len : Int) then some r.toNat else none

/-- Replace the element at position `n` (no-op when out of range). -/
def listModify {α : Type} (l : List α) (n : Nat) (f : α → α) : List α :=
  match l, n with
  | [], _ => []
  | a :: t, 0 => f a :: t
  | a :: t, n + 1 => a :: listModify t n f

/-- Stable descending insertion: the new element goes after every earlier
element whose key is greater than or equal to its own, matching the stability
of Python `list.sort(key=..., reverse=True)`. -/
def insertDescBy {α : Type} (ge : α → α → Bool) (a : α) : List α → List α
  | [] => [a]
  | b :: t => if ge b a then b :: insertDescBy ge a t else a :: b :: t

/-- Stable descending sort (`ge b a` reads: the key of `b` is at least the
key of `a`). -/
def pySortDesc {α : Type} (ge : α → α → Bool) (l : List α) : List α :=
  l.foldl (fun acc a => insertDescBy ge a acc) []

/-- Python `str.strip()` (no arguments): drop leading and trailing
whitespace, modelled on the character list of the string. -/
def pyStrip (s : String) : String :=
  ⟨((s.data.dropWhile Char.isWhitespace).reverse.dropWhile Char.isWhitespace).reverse⟩

/-- Python `str.lower()`, modelled on the character list of the string. -/
def pyLower (s : String) : String := ⟨s.data.map Char.toLower⟩

/-! The Session Store: `QuizStateManager` methods.  Every method reads the
whole document fresh from disk under the store lock, so the embedding passes
`Store` in and out explicitly. -/

/-- `QuizStateManager.load_quiz_state`: the stored session for the chat, or
`none` when the key is absent (read failures also degrade to `none`). -/
def load_quiz_state (chat_id : Int) (st : Store) : Option QuizState :=
  alGet st.sessions chat_id

/-- `QuizStateManager.save_quiz_state`: replace the stored session document
wholesale; a failing write raises (the wrapper re-raises). -/
def save_quiz_state (chat_id : Int) (q : QuizState) (writeOk : Bool) (st : Store) :
    Except PyErr Store :=
  if writeOk then .ok { st with sessions := alSet st.sessions chat_id q }
  else .error .ioError

/-- The score mutation of `QuizStateManager.update_scores`: create the entry
with 0 points if absent, then add the points and refresh the username. -/
def bumpScore (scores : List (Int × ScoreEntry)) (user_id : Int) (username : String)
    (points : Int) : List (Int × ScoreEntry) :=
  let scores1 :=
    match alGet scores user_id with
    | some _ => scores
    | none => alSet scores user_id { username := username, points := 0 }
  match alGet scores1 user_id with
  | some e => alSet scores1 user_id { username := username, points := e.points + points }
  | none => scores1

/-- `QuizStateManager.update_scores`: no-op when the chat has no session
(warning + return); otherwise mutate the scores and persist; a failing write
raises (the wrapper re-raises). -/
def update_scores (chat_id user_id : Int) (username : String) (points : Int)
    (writeOk : Bool) (st : Store) : Except PyErr Store :=
  match alGet st.sessions chat_id with
  | none => .ok st
  | some qs =>
    let qs' := { qs with scores := bumpScore qs.scores user_id username points }
    if writeOk then .ok { st with sessions := alSet st.sessions chat_id qs' }
    else .error .ioError

/-- `QuizStateManager.mark_question_answered`: under the lock, return `false`
when the chat has no session, the index is at or past the end, the index
resolves to no element, or the question is already answered; otherwise set
`answered := true`, record the closing answer text and persist.  Every
exception (including a failing write) is caught and turned into `false`. -/
def mark_question_answered (chat_id : Int) (question_idx : Int) (correct_answer : String)
    (writeOk : Bool) (st : Store) : Bool × Store :=
  match alGet st.sessions chat_id with
  | none => (false, st)
  | some qs =>
    if (qs.questions.length : Int) ≤ question_idx then (false, st)
    else
      match pyResolve qs.questions.length question_idx with
      | none => (false, st)
      | some r =>
        match qs.questions.get? r with
        | none => (false, st)
        | some q =>
          if q.answered then (false, st)
          else
            let q' := { q with answered := true, answered_by := some correct_answer }
            let qs' := { qs with questions := listModify qs.questions r (fun _ => q') }
            if writeOk then (true, { st with sessions := alSet st.sessions chat_id qs' })
            else (false, st)

/-- `QuizStateManager.check_user_attempted_question`: pure read of the
attempted set of one question. -/
def check_user_attempted_question (chat_id : Int) (question_idx : Int) (user_id : Int)
    (st : Store) : Bool :=
  match alGet st.sessions chat_id with
  | none => false
  | some qs =>
    if (qs.questions.length : Int) ≤ question_idx then false
    else
      match pyResolve qs.questions.length question_idx with
      | none => false
      | some r =>
        match qs.questions.get? r with
        | none => false
        | some q => q.attempted_by.contains user_id

/-- `QuizStateManager.mark_user_attempted_question`: idempotently append the
user to the attempted set; returns `true` without writing when the user is
already present; exceptions (including a failing write) become `false`. -/
def mark_user_attempted_question (chat_id : Int) (question_idx : Int) (user_id : Int)
    (writeOk : Bool) (st : Store) : Bool × Store :=
  match alGet st.sessions chat_id with
  | none => (false, st)
  | some qs =>
    if (qs.questions.length : Int) ≤ question_idx then (false, st)
    else
      match pyResolve qs.questions.length question_idx with
      | none => (false, st)
      | some r =>
        match qs.questions.get? r with
        | none => (false, st)
        | some q =>
          if q.attempted_by.contains user_id then (true, st)
          else
            let q' := { q with attempted_by := q.attempted_by ++ [user_id] }
            let qs' := { qs with questions := listModify qs.questions r (fun _ => q') }
            if writeOk then (true, { st with sessions := alSet st.sessions chat_id qs' })
            else (false, st)

/-- `QuizStateManager.clear_quiz_state`: delete the session document if
present; every failure is swallowed. -/
def clear_quiz_state (chat_id : Int) (writeOk : Bool) (st : Store) : Store :=
  match alGet st.sessions chat_id with
  | none => st
  | some _ =>
    if writeOk then { st with sessions := alRemove st.sessions chat_id } else st

/-- `QuizStateManager.advance_to_next_question`: when no questions remain,
set `active := false` and report completion (`false`); otherwise increment
`current_question` and report `true`.  Exceptions (including a failing
write) become `false`. -/
def advance_to_next_question (chat_id : Int) (writeOk : Bool) (st : Store) :
    Bool × Store :=
  match alGet st.sessions chat_id with
  | none => (false, st)
  | some qs =>
    if qs.questions.length ≤ qs.current_question + 1 then
      let qs' := { qs with active := false }
      if writeOk then (false, { st with sessions := alSet st.sessions chat_id qs' })
      else (false, st)
    else
      let qs' := { qs with current_question := qs.current_question + 1 }
      if writeOk then (true, { st with sessions := alSet st.sessions chat_id qs' })
      else (false, st)

/-- `QuizStateManager.record_quiz_win`: initialize the leaderboard entry when
the user is new (keys `quiz_wins`, `total_points`, `quizzes_participated`,
`last_win_date`), then increment the win counters with `+=`.  A `+=` on an
entry that lacks the key raises `KeyError`; a failing write raises; both are
re-raised by the wrapper.  The `quiz_subject`, `total_participants` and
`total_questions` arguments are only logged by the source. -/
def record_quiz_win (winner_user_id : Int) (winner_username : String)
    (quiz_subject : String) (total_participants : Int) (winner_score : Int)
    (total_questions : Int) (now : String) (writeOk : Bool)
    (lb : List (Int × LBEntry)) : Except PyErr (List (Int × LBEntry)) :=
  let init : LBEntry :=
    { username := winner_username, quiz_wins := some 0, total_points := some 0,
      quizzes_participated := some 0, wins := none, last_win_date := none }
  let lb1 :=
    match alGet lb winner_user_id with
    | some _ => lb
    | none => alSet lb winner_user_id init
  match alGet lb1 winner_user_id with
  | none => .error .keyError
  | some e =>
    match e.quiz_wins, e.total_points, e.quizzes_participated with
    | some qw, some tp, some qp =>
      let e' := { e with
        username := winner_username, quiz_wins := some (qw + 1),
        total_points := some (tp + winner_score),
        quizzes_participated := some (qp + 1), last_win_date := some now }
      if writeOk then .ok (alSet lb1 winner_user_id e') else .error .ioError
    | _, _, _ => .error .keyError

/-- One row of the persistent leaderboard as returned to callers. -/
structure LBRow where
  user_id : Int
  username : String
  wins : Int
  total_points : Int
  quizzes_participated : Int
  last_win_date : Option String
deriving Repr, DecidableEq

/-- Ordering key of the persistent leaderboard sort: wins descending, then
total points descending (`ge b a` reads: `b` sorts at or before `a`). -/
def lbRowGE (b a : LBRow) : Bool :=
  decide (a.wins < b.wins) || (decide (a.wins = b.wins) && decide (a.total_points ≤ b.total_points))

/-- The effective `QuizStateManager.get_persistent_leaderboard` (the last of
the three same-named definitions, state_manager.py line 783): keep only the
entries whose `wins` key reads positive, sort by wins then total points,
truncate to `limit` (default 10 at the call sites). -/
def get_persistent_leaderboard (limit : Nat) (lb : List (Int × LBEntry)) : List LBRow :=
  let rows := lb.filterMap (fun p =>
    if 0 < (p.2.wins.getD 0) then
      some { user_id := p.1, username := p.2.username, wins := p.2.wins.getD 0,
             total_points := p.2.total_points.getD 0,
             quizzes_participated := p.2.quizzes_participated.getD 0,
             last_win_date := p.2.last_win_date }
    else none)
  (pySortDesc lbRowGE rows).take limit

/-- The effective `QuizStateManager.check_quiz_has_multiple_participants`
(state_manager.py line 810): more than one distinct user across the
attempted sets of all questions. -/
def distinct_attempters (qs : QuizState) : List Int :=
  ((qs.questions.map (fun q => q.attempted_by)).flatten).eraseDups

/-- `check_quiz_has_multiple_participants`: `false` when no session is
stored, otherwise whether more than one distinct user attempted a question. -/
def check_quiz_has_multiple_participants (chat_id : Int) (st : Store) : Bool :=
  match load_quiz_state chat_id st with
  | none => false
  | some qs => 1 < (distinct_attempters qs).length

/-! The Session Orchestrator: `QuizManager` methods.  The orchestrator holds
no state of its own; every method goes through the state manager.  The
embedded orchestrator calls every write primitive with `writeOk := true`
(the normal, failure-free execution). -/

/-- `QuizManager.is_quiz_active`: the stored `active` flag, `false` when no
session document exists. -/
def is_quiz_active (chat_id : Int) (st : Store) : Bool :=
  match load_quiz_state chat_id st with
  | none => false
  | some qs => qs.active

/-- One row of an in-session leaderboard. -/
structure ScoreRow where
  user_id : Int
  username : String
  points : Int
deriving Repr, DecidableEq

/-- `QuizStateManager.get_leaderboard_data`: the session scores in insertion
order, stably sorted by points descending. -/
def get_leaderboard_data (chat_id : Int) (st : Store) : List ScoreRow :=
  match load_quiz_state chat_id st with
  | none => []
  | some qs =>
    let rows := qs.scores.map (fun p =>
      { user_id := p.1, username := p.2.username, points := p.2.points : ScoreRow })
    pySortDesc (fun b a => decide (a.points ≤ b.points)) rows

/-- The current question payload returned to callers. -/
structure CurrentQuestion where
  question : Question
  question_index : Nat
deriving Repr, DecidableEq

/-- `QuizStateManager.get_current_question`: `none` when there is no active
session or the index is past the end. -/
def get_current_question (chat_id : Int) (st : Store) : Option CurrentQuestion :=
  match load_quiz_state chat_id st with
  | none => none
  | some qs =>
    if !qs.active then none
    else
      match qs.questions.get? qs.current_question with
      | none => none
      | some q => some { question := q, question_index := qs.current_question }

/-- Result of `QuizManager.stop_quiz`. -/
structure StopResult where
  success : Bool
  error_type : Option String
  final_leaderboard : List ScoreRow
deriving Repr, DecidableEq

/-- `QuizManager.stop_quiz` (quiz_manager.py line 423): compute the final
leaderboard; when `record_win` holds, the leaderboard is non-empty, the quiz
has more than one distinct attempting user and the top scorer has positive
points, record the win for the top scorer; then clear the session document.
An exception escaping `record_quiz_win` is caught by the outer handler,
which reports a system error without clearing the session.  The rendering
metadata (`quiz_info`) of the result is not modelled. -/
def stop_quiz (chat_id : Int) (record_win : Bool) (now : String) (st : Store) :
    StopResult × Store :=
  match load_quiz_state chat_id st with
  | none => ({ success := false, error_type := some "no_quiz", final_leaderboard := [] }, st)
  | some qs =>
    let leaderboard_data := get_leaderboard_data chat_id st
    let recRes : Except PyErr (List (Int × LBEntry)) :=
      if record_win && !leaderboard_data.isEmpty
          && check_quiz_has_multiple_participants chat_id st then
        match leaderboard_data with
        | [] => .ok st.leaderboard
        | winner :: _ =>
          if 0 < winner.points then
            record_quiz_win winner.user_id winner.username qs.subject
              (leaderboard_data.length : Int) winner.points
              (qs.questions.length : Int) now true st.leaderboard
          else .ok st.leaderboard
      else .ok st.leaderboard
    match recRes with
    | .error _ =>
      ({ success := false, error_type := some "system_error", final_leaderboard := [] }, st)
    | .ok lb' =>
      let st2 := clear_quiz_state chat_id true { st with leaderboard := lb' }
      ({ success := true, error_type := none, final_leaderboard := leaderboard_data }, st2)

/-- Result of `QuizManager.process_answer`.  On failure only `error_type` is
populated; on success the remaining fields mirror the result dict of the
source (`final_leaderboard` holds the `success` flag and the leaderboard of
the embedded `stop_quiz` result on the completion path). -/
structure AnswerResult where
  success : Bool
  error_type : Option String
  is_correct : Option Bool
  correct_answer : Option String
  points_awarded : Option Int
  next_question : Option CurrentQuestion
  quiz_complete : Option Bool
  final_leaderboard : Option (Bool × List ScoreRow)
deriving Repr, DecidableEq

/-- An error result of `process_answer`. -/
def answerError (t : String) : AnswerResult :=
  { success := false, error_type := some t, is_correct := none, correct_answer := none,
    points_awarded := none, next_question := none, quiz_complete := none,
    final_leaderboard := none }

/-- `QuizManager.process_answer` (quiz_manager.py line 129), step by step:
reject when no active session; reject an out-of-range index; in multi mode
reject a repeat attempt and otherwise record the attempt; evaluate
correctness as equality of the whitespace-stripped answer and stored correct
answer; award one point through `update_scores` on a correct answer; when
the addressed question is the current one, decide advancement by mode (solo:
the creator answered; multi: the answer was correct); on advancement mark
the question answered (the returned flag is ignored by the source) and
advance, completing the quiz through `stop_quiz` when no questions remain. -/
def process_answer (chat_id user_id : Int) (username : String) (question_idx : Int)
    (answer : String) (now : String) (st : Store) : AnswerResult × Store :=
  if !is_quiz_active chat_id st then (answerError "no_quiz", st)
  else
    match load_quiz_state chat_id st with
    | none => (answerError "state_error", st)
    | some qs =>
      if question_idx < 0 || (qs.questions.length : Int) ≤ question_idx then
        (answerError "invalid_question", st)
      else
        let q := (qs.questions.get? question_idx.toNat).getD default
        if qs.mode == "multi"
            && check_user_attempted_question chat_id question_idx user_id st then
          (answerError "already_attempted", st)
        else
          let st1 :=
            if qs.mode == "multi" then
              (mark_user_attempted_question chat_id question_idx user_id true st).2
            else st
          let is_correct := pyStrip answer == pyStrip q.correct_answer
          match (if is_correct then update_scores chat_id user_id username 1 true st1
                 else .ok st1) with
          | .error _ => (answerError "system_error", st1)
          | .ok st2 =>
            let base : AnswerResult :=
              { success := true, error_type := none, is_correct := some is_correct,
                correct_answer := some q.correct_answer,
                points_awarded := some (if is_correct then 1 else 0),
                next_question := none, quiz_complete := none, final_leaderboard := none }
            if question_idx == (qs.current_question : Int) then
              let should_advance :=
                if qs.mode == "solo" then qs.creator_id == some user_id
                else if qs.mode == "multi" then is_correct
                else false
              if should_advance then
                let st3 := (mark_question_answered chat_id question_idx answer true st2).2
                let adv := advance_to_next_question chat_id true st3
                if adv.1 then
                  ({ base with
                     next_question := get_current_question chat_id adv.2,
                     quiz_complete := some false }, adv.2)
                else
                  let fin := stop_quiz chat_id true now adv.2
                  ({ base with
                     quiz_complete := some true,
                     final_leaderboard := some (fin.1.success, fin.1.final_leaderboard) },
                   fin.2)
              else ({ base with quiz_complete := some false }, st2)
            else ({ base with quiz_complete := some false }, st2)

/-- Result of `QuizManager.get_leaderboard`: either the live in-session
leaderboard or the persistent one. -/
inductive LeaderboardView where
  | current_quiz (rows : List ScoreRow)
  | persistent (rows : List LBRow)
deriving Repr, DecidableEq

/-- `QuizManager.get_leaderboard` (quiz_manager.py line 377): the live
in-session leaderboard while a session is active, otherwise the persistent
cross-session leaderboard (default limit 10). -/
def get_leaderboard (chat_id : Int) (st : Store) : LeaderboardView :=
  if is_quiz_active chat_id st then .current_quiz (get_leaderboard_data chat_id st)
  else .persistent (get_persistent_leaderboard 10 st.leaderboard)

/-! Quiz creation: `QuizManager.create_quiz`,
`QuizManager._validate_quiz_parameters`, and the
`QuizStateManager.create_quiz_state_template` / `_format_question` pair. -/

/-- Result of `_validate_quiz_parameters`; the normalized values are present
exactly when validation passes. -/
structure ValidationResult where
  valid : Bool
  error : Option String
  subject : Option String
  num_questions : Option Int
  difficulty : Option String
deriving Repr, DecidableEq

/-- The accepted difficulty values. -/
def valid_difficulties : List String := ["easy", "medium", "hard", "expert"]

/-- `QuizManager._validate_quiz_parameters` (quiz_manager.py line 559):
reject an empty or over-100-character (after stripping) subject; replace a
question count below 1 by the default 5 and cap a count above 20 at 20;
replace a difficulty outside the accepted set by `medium`, lower-casing an
accepted one. -/
def validate_quiz_parameters (subject : String) (num_questions : Int)
    (difficulty : String) : ValidationResult :=
  if subject == "" || pyStrip subject == "" then
    { valid := false, error := some "Subject cannot be empty.", subject := none,
      num_questions := none, difficulty := none }
  else
    let subject := pyStrip subject
    if 100 < subject.length then
      { valid := false, error := some "Subject is too long.", subject := none,
        num_questions := none, difficulty := none }
    else
      let n := if num_questions < 1 then 5
               else if 20 < num_questions then 20
               else num_questions
      let d := if difficulty == "" || !(valid_difficulties.contains (pyLower difficulty)) then
                 "medium"
               else pyLower difficulty
      { valid := true, error := none, subject := some subject,
        num_questions := some n, difficulty := some d }

/-- A candidate question as returned by the question generator (the dict
fields read by `_format_question`). -/
structure RawQuestion where
  question_text : String
  options : List String
  correct_answer : String
deriving Repr, DecidableEq

/-- `QuizStateManager._format_question`: attach the initial resolution state
to a generated question. -/
def format_question (r : RawQuestion) : Question :=
  { question_text := r.question_text, options := r.options,
    correct_answer := r.correct_answer, answered := false, answered_by := none,
    attempted_by := [] }

/-- `QuizStateManager.create_quiz_state_template` (state_manager.py line
489), exactly as defined: three data parameters.  The template writes no
`mode` or `creator_id` key; every reader defaults them to `"multi"` and
`None`, which is how they are populated here. -/
def create_quiz_state_template (subject : String) (difficulty : String)
    (questions : List RawQuestion) (now : String) : QuizState :=
  { active := true, subject := subject, difficulty := difficulty,
    questions := questions.map format_question, current_question := 0, scores := [],
    created_at := now, message_ids := [], main_message_id := none,
    mode := "multi", creator_id := none }

/-- Data-argument count of the definition of `create_quiz_state_template`
(state_manager.py line 489: `subject, difficulty, questions`). -/
def create_quiz_state_template_param_count : Nat := 3

/-- Data-argument count at the call site inside `create_quiz`
(quiz_manager.py line 95: `subject, difficulty, questions, mode, creator_id,
creator_name`). -/
def create_quiz_call_arg_count : Nat := 6

/-- Python raises `TypeError` at a call whose argument count does not match
the parameter count of the called function. -/
def create_quiz_template_call_raises : Bool :=
  create_quiz_call_arg_count ≠ create_quiz_state_template_param_count

/-- `QuizStateManager._validate_question_structure`: non-empty text, at
least two options, correct answer present among the options (the
field-presence and type checks of the source always pass in this typed
model). -/
def validate_question_structure (q : Question) : Bool :=
  pyStrip q.question_text ≠ "" && 2 ≤ q.options.length
    && q.options.contains q.correct_answer

/-- `QuizStateManager._validate_score_structure`: non-empty username and
non-negative points. -/
def validate_score_structure (e : ScoreEntry) : Bool :=
  pyStrip e.username ≠ "" && 0 ≤ e.points

/-- `QuizStateManager.validate_quiz_state`: the field checks that are not
already guaranteed by the typed model (required keys present, `active`
boolean, `current_question` non-negative). -/
def validate_quiz_state (qs : QuizState) : Bool :=
  pyStrip qs.subject ≠ "" && valid_difficulties.contains qs.difficulty
    && !qs.questions.isEmpty && qs.questions.all validate_question_structure
    && qs.scores.all (fun p => validate_score_structure p.2)

/-- Outcome of the external question-generation call made by `create_quiz`
(the Gemini client is an external collaborator; its result is a parameter of
the embedding). -/
inductive GenOutcome where
  | failure
  | ok (questions : List RawQuestion)
deriving Repr, DecidableEq

/-- Result of `QuizManager.create_quiz`. -/
structure CreateResult where
  success : Bool
  error_type : Option String
  previous_quiz_stopped : Option Bool
  subject : Option String
  num_questions : Option Int
  difficulty : Option String
  first_question : Option RawQuestion
deriving Repr, DecidableEq

/-- A failure result of `create_quiz`. -/
def createError (t : String) : CreateResult :=
  { success := false, error_type := some t, previous_quiz_stopped := none,
    subject := none, num_questions := none, difficulty := none,
    first_question := none }

/-- `QuizManager.create_quiz` (quiz_manager.py line 35): stop a still-active
session without recording a win; validate and normalize the parameters;
consult the question generator; then call `create_quiz_state_template` with
six data arguments.  The template takes three, so the call raises
`TypeError`, the outer handler catches it, and a system error is reported
with nothing persisted; the branch below the arity test embeds the dead
intended continuation of the source (validate the built state, save it,
return the first question). -/
def create_quiz (chat_id : Int) (subject : String) (num_questions : Int)
    (difficulty : String) (mode : String) (creator_id : Int) (creator_name : String)
    (gen : GenOutcome) (now : String) (st : Store) : CreateResult × Store :=
  let prev :=
    if is_quiz_active chat_id st then
      let s := stop_quiz chat_id false now st
      (s.1.success, s.2)
    else (false, st)
  let st0 := prev.2
  let v := validate_quiz_parameters subject num_questions difficulty
  if !v.valid then (createError "validation", st0)
  else
    match gen with
    | .failure => (createError "api_error", st0)
    | .ok questions =>
      if create_quiz_template_call_raises then (createError "system_error", st0)
      else
        let qstate := create_quiz_state_template (v.subject.getD subject)
          (v.difficulty.getD difficulty) questions now
        if !validate_quiz_state qstate then (createError "state_error", st0)
        else
          match save_quiz_state chat_id qstate true st0 with
          | .error _ => (createError "system_error", st0)
          | .ok st1 =>
            ({ success := true, error_type := none,
               previous_quiz_stopped := some prev.1, subject := v.subject,
               num_questions := v.num_questions, difficulty := v.difficulty,
               first_question := questions.head? }, st1)

/-! State-evolution characterizations: the session-document mutation each
writing primitive performs, as a function on `QuizState` (the identity when
the primitive writes nothing).  These restate the mutations of the
corresponding `QuizStateManager` methods and are used to phrase the
composition lemmas. -/

/-- The session mutation of `mark_user_attempted_question`. -/
def attemptMark (qs : QuizState) (idx : Int) (user : Int) : QuizState :=
  if (qs.questions.length : Int) ≤ idx then qs
  else
    match pyResolve qs.questions.length idx with
    | none => qs
    | some r =>
      match qs.questions.get? r with
      | none => qs
      | some q =>
        if q.attempted_by.contains user then qs
        else
          let q' := { q with attempted_by := q.attempted_by ++ [user] }
          { qs with questions := listModify qs.questions r (fun _ => q') }

/-- The session mutation of `mark_question_answered`. -/
def answerMark (qs : QuizState) (idx : Int) (ans : String) : QuizState :=
  if (qs.questions.length : Int) ≤ idx then qs
  else
    match pyResolve qs.questions.length idx with
    | none => qs
    | some r =>
      match qs.questions.get? r with
      | none => qs
      | some q =>
        if q.answered then qs
        else
          let q' := { q with answered := true, answered_by := some ans }
          { qs with questions := listModify qs.questions r (fun _ => q') }

/-- The session mutation of `advance_to_next_question`. -/
def advanceState (qs : QuizState) : QuizState :=
  if qs.questions.length ≤ qs.current_question + 1 then { qs with active := false }
  else { qs with current_question := qs.current_question + 1 }

/-- Python dicts have unique keys; a store arising from the JSON files
satisfies this. -/
def sessionsWF (st : Store) : Prop := (st.sessions.map Prod.fst).Nodup

/-! Concrete fixtures used by the witnesses and counterexamples. -/

/-- Fixture: an unanswered two-option question. -/
def fxQ : Question :=
  { question_text := "What is 2+2?", options := ["3", "4"], correct_answer := "4",
    answered := false, answered_by := none, attempted_by := [] }

/-- Fixture: a second unanswered question. -/
def fxQ2 : Question :=
  { question_text := "What is 3+3?", options := ["5", "6"], correct_answer := "6",
    answered := false, answered_by := none, attempted_by := [] }

/-- Fixture: `fxQ` closed with the answer text 4, attempted by users 10 and 11. -/
def fxQDone : Question :=
  { fxQ with answered := true, answered_by := some "4", attempted_by := [10, 11] }

/-- Fixture: a finished two-user multi session (users 10 and 11 both
attempted; alice has 2 points, bob 0) awaiting its stop call. -/
def fxSessWin : QuizState :=
  { active := false, subject := "Geography", difficulty := "easy",
    questions := [fxQDone], current_question := 0,
    scores := [(10, { username := "alice", points := 2 }),
               (11, { username := "bob", points := 0 })],
    created_at := "t0", message_ids := [], main_message_id := none,
    mode := "multi", creator_id := some 10 }

/-- Fixture store for the win-recording round trip. -/
def fxStWin : Store := { sessions := [(1, fxSessWin)], leaderboard := [] }

/-- Fixture: an active two-question multi session whose current question is
already marked answered (the state a racing loser observes). -/
def fxSessRace : QuizState :=
  { active := true, subject := "Geography", difficulty := "easy",
    questions := [fxQDone, fxQ2], current_question := 0, scores := [],
    created_at := "t0", message_ids := [], main_message_id := none,
    mode := "multi", creator_id := some 10 }

/-- Fixture store for the lost-race scenario. -/
def fxStRace : Store := { sessions := [(2, fxSessRace)], leaderboard := [] }

/-- Fixture: an active one-question multi session, nothing answered or
attempted yet. -/
def fxSessLive : QuizState :=
  { active := true, subject := "Geography", difficulty := "easy",
    questions := [fxQ], current_question := 0, scores := [],
    created_at := "t0", message_ids := [], main_message_id := none,
    mode := "multi", creator_id := some 10 }

/-- Fixture store with the one-question live session under chat 3. -/
def fxStLive : Store := { sessions := [(3, fxSessLive)], leaderboard := [] }

/-- Fixture: the same live session with a second question. -/
def fxSessLive2 : QuizState := { fxSessLive with questions := [fxQ, fxQ2] }

/-- Fixture store with the two-question live session under chat 3. -/
def fxStLive2 : Store := { sessions := [(3, fxSessLive2)], leaderboard := [] }

/-- Fixture: an active solo session in which two distinct users have scored
but nobody is recorded in any attempted set. -/
def fxSessSolo : QuizState :=
  { fxSessLive with
    mode := "solo", creator_id := some 10,
    scores := [(10, { username := "alice", points := 1 }),
               (11, { username := "bob", points := 1 })] }

/-- Fixture store with the solo session under chat 5. -/
def fxStSolo : Store := { sessions := [(5, fxSessSolo)], leaderboard := [] }

/-- Fixture: a finished session in which only user 10 attempted anything and
scored 2 points. -/
def fxSessSingle : QuizState :=
  { fxSessWin with
    questions := [{ fxQ with answered := true, answered_by := some "4", attempted_by := [10] }],
    scores := [(10, { username := "alice", points := 2 })] }

/-- Fixture store with the single-attempter session under chat 6. -/
def fxStSingle : Store := { sessions := [(6, fxSessSingle)], leaderboard := [] }

/-- Fixture: a generated raw question. -/
def fxRaw : RawQuestion :=
  { question_text := "What is 2+2?", options := ["3", "4"], correct_answer := "4" }

/-- Fixture: the empty store (fresh data files). -/
def fxEmpty : Store := { sessions := [], leaderboard := [] }

/-! Helper lemmas about the association-list model and the writing
primitives, shared by the claim theorems. -/

theorem alGet_alSet_self {α : Type} (l : List (Int × α)) (k : Int) (v : α) :
    alGet (alSet l k v) k = some v := by
  induction l with
  | nil => simp [alGet, alSet]
  | cons p t ih =>
    by_cases h : p.1 = k
    · simp [alSet, h, alGet]
    · simp [alSet, h, alGet, ih]

theorem alGet_eq_none_of_not_mem {α : Type} (l : List (Int × α)) (k : Int)
    (h : k ∉ l.map Prod.fst) : alGet l k = none := by
  induction l with
  | nil => rfl
  | cons p t ih =>
    simp only [List.map_cons, List.mem_cons, not_or] at h
    simp [alGet, show ¬ p.1 = k from fun hh => h.1 hh.symm, ih h.2]

theorem alGet_alRemove_self {α : Type} (l : List (Int × α)) (k : Int)
    (h : (l.map Prod.fst).Nodup) : alGet (alRemove l k) k = none := by
  induction l with
  | nil => rfl
  | cons p t ih =>
    simp only [List.map_cons, List.nodup_cons] at h
    by_cases hpk : p.1 = k
    · simp [alRemove, hpk, alGet_eq_none_of_not_mem t k (hpk ▸ h.1)]
    · simp [alRemove, hpk, alGet, ih h.2]

theorem map_fst_alSet {α : Type} (l : List (Int × α)) (k : Int) (v : α) :
    (alSet l k v).map Prod.fst
      = if k ∈ l.map Prod.fst then l.map Prod.fst else l.map Prod.fst ++ [k] := by
  induction l with
  | nil => simp [alSet]
  | cons p t ih =>
    by_cases h : p.1 = k
    · simp [alSet, h]
    · by_cases hm : k ∈ t.map Prod.fst
      · simp [alSet, alGet, h, ih, hm, show ¬ k = p.1 from fun hh => h hh.symm]
      · simp [alSet, alGet, h, ih, hm, show ¬ k = p.1 from fun hh => h hh.symm]

theorem nodup_alSet {α : Type} (l : List (Int × α)) (k : Int) (v : α)
    (h : (l.map Prod.fst).Nodup) : ((alSet l k v).map Prod.fst).Nodup := by
  rw [map_fst_alSet]
  split
  · exact h
  · next hm => simp [List.nodup_append, h, hm]

theorem is_quiz_active_eq (chat : Int) (st : Store) (qs : QuizState)
    (h : alGet st.sessions chat = some qs) : is_quiz_active chat st = qs.active := by
  simp [is_quiz_active, load_quiz_state, h]

theorem is_quiz_active_none (chat : Int) (st : Store)
    (h : alGet st.sessions chat = none) : is_quiz_active chat st = false := by
  simp [is_quiz_active, load_quiz_state, h]

theorem mua_lb (chat idx user : Int) (w : Bool) (st : Store) :
    (mark_user_attempted_question chat idx user w st).2.leaderboard = st.leaderboard := by
  unfold mark_user_attempted_question
  repeat' split
  all_goals rfl

theorem mua_get (chat idx user : Int) (st : Store) (qs : QuizState)
    (h : alGet st.sessions chat = some qs) :
    alGet (mark_user_attempted_question chat idx user true st).2.sessions chat
      = some (attemptMark qs idx user) := by
  by_cases h1 : (qs.questions.length : Int) ≤ idx
  · simp [mark_user_attempted_question, attemptMark, h, h1]
  · rcases hr : pyResolve qs.questions.length idx with _ | r
    · simp [mark_user_attempted_question, attemptMark, h, h1, hr]
    · rcases hq : qs.questions[r]? with _ | q
      · simp [mark_user_attempted_question, attemptMark, h, h1, hr, hq]
      · by_cases hc : user ∈ q.attempted_by
        · simp [mark_user_attempted_question, attemptMark, h, h1, hr, hq, hc]
        · simp [mark_user_attempted_question, attemptMark, h, h1, hr, hq, hc,
            alGet_alSet_self]

theorem mua_wf (chat idx user : Int) (w : Bool) (st : Store) (hwf : sessionsWF st) :
    sessionsWF (mark_user_attempted_question chat idx user w st).2 := by
  unfold mark_user_attempted_question
  repeat' split
  all_goals first
    | exact hwf
    | exact nodup_alSet _ _ _ hwf

theorem mqa_lb (chat : Int) (idx : Int) (ans : String) (w : Bool) (st : Store) :
    (mark_question_answered chat idx ans w st).2.leaderboard = st.leaderboard := by
  unfold mark_question_answered
  repeat' split
  all_goals rfl

theorem mqa_get (chat idx : Int) (ans : String) (st : Store) (qs : QuizState)
    (h : alGet st.sessions chat = some qs) :
    alGet (mark_question_answered chat idx ans true st).2.sessions chat
      = some (answerMark qs idx ans) := by
  by_cases h1 : (qs.questions.length : Int) ≤ idx
  · simp [mark_question_answered, answerMark, h, h1]
  · rcases hr : pyResolve qs.questions.length idx with _ | r
    · simp [mark_question_answered, answerMark, h, h1, hr]
    · rcases hq : qs.questions[r]? with _ | q
      · simp [mark_question_answered, answerMark, h, h1, hr, hq]
      · by_cases ha : q.answered
        · simp [mark_question_answered, answerMark, h, h1, hr, hq, ha]
        · simp [mark_question_answered, answerMark, h, h1, hr, hq, ha, alGet_alSet_self]

theorem mqa_wf (chat idx : Int) (ans : String) (w : Bool) (st : Store)
    (hwf : sessionsWF st) : sessionsWF (mark_question_answered chat idx ans w st).2 := by
  unfold mark_question_answered
  repeat' split
  all_goals first
    | exact hwf
    | exact nodup_alSet _ _ _ hwf

theorem adv_eq (chat : Int) (st : Store) (qs : QuizState)
    (h : alGet st.sessions chat = some qs) :
    advance_to_next_question chat true st
      = (decide (qs.current_question + 1 < qs.questions.length),
         { st with sessions := alSet st.sessions chat (advanceState qs) }) := by
  unfold advance_to_next_question advanceState
  rw [h]
  by_cases h1 : qs.questions.length ≤ qs.current_question + 1
  · simp [h1, Nat.not_lt.mpr h1]
  · simp [h1, Nat.not_le.mp h1]

theorem adv_none (chat : Int) (w : Bool) (st : Store)
    (h : alGet st.sessions chat = none) :
    advance_to_next_question chat w st = (false, st) := by
  unfold advance_to_next_question
  rw [h]

theorem upd_eq (chat user : Int) (uname : String) (pts : Int) (st : Store)
    (qs : QuizState) (h : alGet st.sessions chat = some qs) :
    update_scores chat user uname pts true st
      = .ok { st with
              sessions := alSet st.sessions chat
                { qs with scores := bumpScore qs.scores user uname pts } } := by
  unfold update_scores
  rw [h]
  rfl

theorem clear_lb (chat : Int) (w : Bool) (st : Store) :
    (clear_quiz_state chat w st).leaderboard = st.leaderboard := by
  unfold clear_quiz_state
  repeat' split
  all_goals rfl

theorem clear_get_self (chat : Int) (st : Store) (hwf : sessionsWF st) :
    alGet (clear_quiz_state chat true st).sessions chat = none := by
  unfold clear_quiz_state
  rcases h : alGet st.sessions chat with _ | qs
  · simpa using h
  · simpa using alGet_alRemove_self st.sessions chat hwf

theorem clear_eq_some (chat : Int) (st : Store) (qs : QuizState)
    (h : alGet st.sessions chat = some qs) :
    clear_quiz_state chat true st = { st with sessions := alRemove st.sessions chat } := by
  unfold clear_quiz_state
  rw [h]
  rfl

theorem stop_lb_frame (chat : Int) (recWin : Bool) (now : String) (st : Store)
    (h : ∀ qs, alGet st.sessions chat = some qs → (distinct_attempters qs).length ≤ 1) :
    (stop_quiz chat recWin now st).2.leaderboard = st.leaderboard := by
  unfold stop_quiz load_quiz_state
  rcases halg : alGet st.sessions chat with _ | qs
  · simp
  · have hck : check_quiz_has_multiple_participants chat st = false := by
      unfold check_quiz_has_multiple_participants load_quiz_state
      rw [halg]
      simp [Nat.not_lt.mpr (h qs halg)]
    simp [hck, clear_lb]

theorem stop_split (chat : Int) (recWin : Bool) (now : String) (st : Store)
    (qs : QuizState) (h : alGet st.sessions chat = some qs) :
    ((stop_quiz chat recWin now st).1.success = false
       ∧ (stop_quiz chat recWin now st).2 = st)
    ∨ ((stop_quiz chat recWin now st).1
         = { success := true, error_type := none,
             final_leaderboard := get_leaderboard_data chat st }
       ∧ ∃ lb, (stop_quiz chat recWin now st).2
           = { sessions := alRemove st.sessions chat, leaderboard := lb }) := by
  unfold stop_quiz load_quiz_state
  rw [h]
  simp only []
  split
  · next e heq => simp
  · next lb' heq =>
    right
    constructor
    · rfl
    · refine ⟨lb', ?_⟩
      have : alGet ({ st with leaderboard := lb' } : Store).sessions chat = some qs := h
      rw [clear_eq_some chat _ qs this]

theorem listModify_length {α : Type} (l : List α) (n : Nat) (f : α → α) :
    (listModify l n f).length = l.length := by
  induction l generalizing n with
  | nil => rfl
  | cons a t ih =>
    cases n with
    | zero => rfl
    | succ m => simp [listModify, ih]

theorem listModify_getElem? {α : Type} (l : List α) (n : Nat) (f : α → α) (j : Nat) :
    (listModify l n f)[j]? = if j = n then (l[n]?).map f else l[j]? := by
  induction l generalizing n j with
  | nil => simp [listModify]
  | cons a t ih =>
    cases n with
    | zero =>
      cases j with
      | zero => simp [listModify]
      | succ i => simp [listModify]
    | succ m =>
      cases j with
      | zero => simp [listModify]
      | succ i => simpa [listModify] using ih m i

theorem pyResolve_bounds (len : Nat) (idx : Int) (r : Nat)
    (h : pyResolve len idx = some r) : ¬ ((len : Int) ≤ idx) ∧ r < len := by
  simp only [pyResolve] at h
  by_cases hneg : idx < 0
  · rw [if_pos hneg] at h
    split at h
    · next hb =>
      have hr := Option.some.inj h
      constructor
      · omega
      · omega
    · exact absurd h (by simp)
  · rw [if_neg hneg] at h
    split at h
    · next hb =>
      have hr := Option.some.inj h
      constructor
      · omega
      · omega
    · exact absurd h (by simp)

theorem pyResolve_nonneg (len : Nat) (idx : Int) (h0 : 0 ≤ idx)
    (h1 : idx < (len : Int)) : pyResolve len idx = some idx.toNat := by
  simp only [pyResolve]
  have hneg : ¬ idx < 0 := by omega
  rw [if_neg hneg, if_pos ⟨h0, h1⟩]

theorem attemptMark_scores (qs : QuizState) (idx user : Int) :
    (attemptMark qs idx user).scores = qs.scores := by
  unfold attemptMark
  repeat' split
  all_goals rfl

theorem attemptMark_len (qs : QuizState) (idx user : Int) :
    (attemptMark qs idx user).questions.length = qs.questions.length := by
  unfold attemptMark
  repeat' split
  all_goals simp [listModify_length]

theorem attemptMark_active (qs : QuizState) (idx user : Int) :
    (attemptMark qs idx user).active = qs.active := by
  unfold attemptMark
  repeat' split
  all_goals rfl

theorem attemptMark_mode (qs : QuizState) (idx user : Int) :
    (attemptMark qs idx user).mode = qs.mode := by
  unfold attemptMark
  repeat' split
  all_goals rfl

theorem attemptMark_current (qs : QuizState) (idx user : Int) :
    (attemptMark qs idx user).current_question = qs.current_question := by
  unfold attemptMark
  repeat' split
  all_goals rfl

theorem answerMark_scores (qs : QuizState) (idx : Int) (ans : String) :
    (answerMark qs idx ans).scores = qs.scores := by
  unfold answerMark
  repeat' split
  all_goals rfl

theorem answerMark_len (qs : QuizState) (idx : Int) (ans : String) :
    (answerMark qs idx ans).questions.length = qs.questions.length := by
  unfold answerMark
  repeat' split
  all_goals simp [listModify_length]

theorem answerMark_mode (qs : QuizState) (idx : Int) (ans : String) :
    (answerMark qs idx ans).mode = qs.mode := by
  unfold answerMark
  repeat' split
  all_goals rfl

theorem answerMark_current (qs : QuizState) (idx : Int) (ans : String) :
    (answerMark qs idx ans).current_question = qs.current_question := by
  unfold answerMark
  repeat' split
  all_goals rfl

theorem answerMark_attempted (qs : QuizState) (idx : Int) (ans : String) (j : Nat) :
    ((answerMark qs idx ans).questions[j]?).map (fun q => q.attempted_by)
      = (qs.questions[j]?).map (fun q => q.attempted_by) := by
  unfold answerMark
  repeat' split
  all_goals try rfl
  all_goals
    simp only [listModify_getElem?]
    split
    · next hj =>
      subst hj
      simp_all [List.get?_eq_getElem?]
    · rfl

theorem advanceState_scores (qs : QuizState) : (advanceState qs).scores = qs.scores := by
  unfold advanceState
  split
  all_goals rfl

theorem advanceState_mode (qs : QuizState) : (advanceState qs).mode = qs.mode := by
  unfold advanceState
  split
  all_goals rfl

theorem advanceState_questions (qs : QuizState) :
    (advanceState qs).questions = qs.questions := by
  unfold advanceState
  split
  all_goals rfl

theorem check_attempted_eq (chat idx user : Int) (st : Store) (qs : QuizState)
    (r : Nat) (q : Question) (h : alGet st.sessions chat = some qs)
    (hr : pyResolve qs.questions.length idx = some r) (hq : qs.questions[r]? = some q) :
    check_user_attempted_question chat idx user st = q.attempted_by.contains user := by
  have h1 := (pyResolve_bounds _ _ _ hr).1
  simp [check_user_attempted_question, h, h1, hr, hq]

theorem attemptMark_mem (qs : QuizState) (idx user : Int) (r : Nat) (q : Question)
    (hr : pyResolve qs.questions.length idx = some r) (hq : qs.questions[r]? = some q) :
    ∃ q', (attemptMark qs idx user).questions[r]? = some q' ∧ user ∈ q'.attempted_by := by
  have h1 := (pyResolve_bounds _ _ _ hr).1
  by_cases hc : user ∈ q.attempted_by
  · exact ⟨q, by simp [attemptMark, h1, hr, hq, hc], hc⟩
  · refine ⟨{ q with attempted_by := q.attempted_by ++ [user] }, ?_, by simp⟩
    simp [attemptMark, h1, hr, hq, hc, listModify_getElem?]

theorem flatten_nil_of_all {α : Type} (l : List (List α)) (h : ∀ x ∈ l, x = []) :
    l.flatten = [] := by
  induction l with
  | nil => rfl
  | cons a t ih =>
    have ha := h a (by simp)
    have ht := ih (fun x hx => h x (by simp [hx]))
    simp [ha, ht]

theorem distinct_attempters_le_one (qs : QuizState)
    (h : ∀ q ∈ qs.questions, q.attempted_by = []) :
    (distinct_attempters qs).length ≤ 1 := by
  unfold distinct_attempters
  have : ((qs.questions.map (fun q => q.attempted_by)).flatten) = [] := by
    refine flatten_nil_of_all _ ?_
    intro x hx
    simp only [List.mem_map] at hx
    rcases hx with ⟨q, hq, rfl⟩
    exact h q hq
  rw [this]
  decide

theorem mem_listModify {α : Type} (l : List α) (n : Nat) (f : α → α) (x : α)
    (hx : x ∈ listModify l n f) : x ∈ l ∨ ∃ y, y ∈ l ∧ x = f y := by
  induction l generalizing n with
  | nil => simp [listModify] at hx
  | cons a t ih =>
    cases n with
    | zero =>
      simp only [listModify, List.mem_cons] at hx
      rcases hx with hx | hx
      · exact Or.inr ⟨a, by simp, hx⟩
      · exact Or.inl (by simp [hx])
    | succ m =>
      simp only [listModify, List.mem_cons] at hx
      rcases hx with hx | hx
      · exact Or.inl (by simp [hx])
      · rcases ih m hx with h1 | ⟨y, hy, hxy⟩
        · exact Or.inl (by simp [h1])
        · exact Or.inr ⟨y, by simp [hy], hxy⟩

theorem answerMark_attempted_all (qs : QuizState) (idx : Int) (ans : String)
    (h : ∀ q ∈ qs.questions, q.attempted_by = []) :
    ∀ q ∈ (answerMark qs idx ans).questions, q.attempted_by = [] := by
  intro q hq
  rcases (List.mem_iff_getElem?).mp hq with ⟨j, hj⟩
  have hpt := answerMark_attempted qs idx ans j
  rw [hj] at hpt
  rcases hx : qs.questions[j]? with _ | q0
  · rw [hx] at hpt
    simp at hpt
  · rw [hx] at hpt
    have hq0 : q.attempted_by = q0.attempted_by := by simpa using hpt
    rw [hq0]
    exact h q0 (List.getElem?_mem hx)

/-! The claims. -/

/-- C1: the claimed round trip between win recording and leaderboard reading
fails on the code.  In the fixture, stop commits a win for user 10 through
`record_quiz_win` (recordWin is true, users 10 and 11 both attempted, and the
top score is 2 > 0): the winner entry is written under the key `quiz_wins`.
The effective `get_persistent_leaderboard`, which a subsequent
`get_leaderboard` call with no active session reaches, filters on the never
written key `wins`, so the persistent leaderboard comes back empty and user
10 does not appear at all. -/
theorem C1_win_record_read_mismatch :
    check_quiz_has_multiple_participants 1 fxStWin = true
    ∧ (get_leaderboard_data 1 fxStWin).head?
        = some { user_id := 10, username := "alice", points := 2 }
    ∧ alGet (stop_quiz 1 true "t1" fxStWin).2.leaderboard 10
        = some { username := "alice", quiz_wins := some 1, total_points := some 2,
                 quizzes_participated := some 1, wins := none, last_win_date := some "t1" }
    ∧ is_quiz_active 1 (stop_quiz 1 true "t1" fxStWin).2 = false
    ∧ get_leaderboard 1 (stop_quiz 1 true "t1" fxStWin).2 = .persistent [] := by
  decide

/-- C2: a create request with valid parameters and successful question
generation does not build and persist a session: the call to
`create_quiz_state_template` passes six data arguments to a three-parameter
function, so Python raises `TypeError`, the outer handler reports a system
error, and nothing is stored. -/
theorem C2_create_quiz_arity_type_error :
    (validate_quiz_parameters "Geography" 3 "easy").valid = true
    ∧ create_quiz 1 "Geography" 3 "easy" "multi" 10 "alice" (.ok [fxRaw]) "t0" fxEmpty
        = (createError "system_error", fxEmpty)
    ∧ load_quiz_state 1
        (create_quiz 1 "Geography" 3 "easy" "multi" 10 "alice" (.ok [fxRaw]) "t0" fxEmpty).2
        = none := by
  decide

/-- C3: when the addressed question is already marked answered
(`mark_question_answered` returns false) while the index still equals
`current_question`, progression is NOT skipped: the source ignores the
returned flag and advances anyway.  In the fixture the call still awards the
point and moves `current_question` from 0 to 1. -/
theorem C3_lost_race_still_advances :
    (alGet fxStRace.sessions 2).map (fun s => s.current_question) = some 0
    ∧ (mark_question_answered 2 0 "4" true fxStRace).1 = false
    ∧ (process_answer 2 12 "carol" 0 "4" "t1" fxStRace).1.points_awarded = some 1
    ∧ (alGet (process_answer 2 12 "carol" 0 "4" "t1" fxStRace).2.sessions 2).map
        (fun s => s.current_question) = some 1 := by
  decide

/-- C4 counterexample: `mark_question_answered` does not surface a failing
write as a `StorageError`.  On the fixture the write is genuinely needed (it
returns true when the write succeeds), yet with the write failing it catches
the exception and returns a normal false with the state unchanged. -/
theorem C4_mark_write_failure_returns_false :
    (mark_question_answered 3 0 "4" true fxStLive).1 = true
    ∧ mark_question_answered 3 0 "4" false fxStLive = (false, fxStLive) := by
  decide

/-- C4 amended: only `save_quiz_state` and `update_scores` surface a failing
write by raising; `mark_question_answered`, `mark_user_attempted_question`,
`advance_to_next_question` and `clear_quiz_state` catch the failure and
return false (or return normally) with the stored state unchanged. -/
theorem C4_amended_write_failure_split (st : Store) (chat user idx pts : Int)
    (qs : QuizState) (uname ans : String) :
    save_quiz_state chat qs false st = .error .ioError
    ∧ update_scores chat user uname pts false st
        = (if (alGet st.sessions chat).isSome then .error .ioError else .ok st)
    ∧ (mark_question_answered chat idx ans false st).1 = false
    ∧ (mark_question_answered chat idx ans false st).2 = st
    ∧ (mark_user_attempted_question chat idx user false st).2 = st
    ∧ advance_to_next_question chat false st = (false, st)
    ∧ clear_quiz_state chat false st = st := by
  refine ⟨rfl, ?_, ?_, ?_, ?_, ?_, ?_⟩
  · unfold update_scores
    cases h : alGet st.sessions chat <;> simp [h]
  · unfold mark_question_answered
    repeat' split
    all_goals first
      | rfl
      | simp_all
  · unfold mark_question_answered
    repeat' split
    all_goals first
      | rfl
      | simp_all
  · unfold mark_user_attempted_question
    repeat' split
    all_goals first
      | rfl
      | simp_all
  · unfold advance_to_next_question
    repeat' split
    all_goals first
      | rfl
      | simp_all
  · unfold clear_quiz_state
    repeat' split
    all_goals first
      | rfl
      | simp_all

/-- C5 counterexample: a requested count of 0 is not clamped to 1; the code
replaces any count below 1 with the default 5. -/
theorem C5_count_zero_normalizes_to_five :
    (validate_quiz_parameters "Geography" 0 "easy").num_questions = some 5
    ∧ (5 : Int) ≠ 1 := by
  decide

/-- C5 amended: for every create request whose subject passes validation,
the count is normalized by replacing every count below 1 with the default 5,
capping every count above 20 at 20, and keeping a count already in [1, 20]
unchanged (no count is produced when the subject is rejected). -/
theorem C5_amended_count_normalization (s : String) (n : Int) (d : String) :
    (validate_quiz_parameters s n d).num_questions
      = if s == "" || pyStrip s == "" || 100 < (pyStrip s).length then none
        else some (if n < 1 then 5 else if 20 < n then 20 else n) := by
  unfold validate_quiz_parameters
  by_cases h1 : (s == "" || pyStrip s == "") = true
  · simp [h1]
  · by_cases h2 : 100 < (pyStrip s).length
    · simp [h1, h2]
    · simp [h1, h2]

/-- C7 (confirmed): `mark_question_answered` returns true exactly when the
session exists, the question at the index exists (Python index resolution),
that question has answered = false, and the persisting write succeeds; in
that case the stored state changes exactly by setting answered := true and
recording the answer text on that question.  In every other case it returns
false and leaves the stored state entirely unchanged, so the answered flag
transitions false to true at most once and is never reset. -/
theorem C7_mark_question_answered_contract (st : Store) (chat idx : Int)
    (ans : String) (writeOk : Bool) :
    ((mark_question_answered chat idx ans writeOk st).1 = true
      ↔ writeOk = true ∧ ∃ qs r q, alGet st.sessions chat = some qs
          ∧ pyResolve qs.questions.length idx = some r
          ∧ qs.questions[r]? = some q ∧ q.answered = false)
    ∧ ((mark_question_answered chat idx ans writeOk st).1 = false
        → (mark_question_answered chat idx ans writeOk st).2 = st)
    ∧ (∀ qs r q, alGet st.sessions chat = some qs
        → pyResolve qs.questions.length idx = some r
        → qs.questions[r]? = some q
        → (mark_question_answered chat idx ans writeOk st).1 = true
        → (mark_question_answered chat idx ans writeOk st).2
            = { st with
                sessions := alSet st.sessions chat
                  { qs with
                    questions := listModify qs.questions r
                      (fun _ => { q with answered := true, answered_by := some ans }) } }) := by
  refine ⟨⟨?_, ?_⟩, ?_, ?_⟩
  · intro htrue
    rcases h : alGet st.sessions chat with _ | qs
    · simp [mark_question_answered, h] at htrue
    · by_cases h1 : (qs.questions.length : Int) ≤ idx
      · simp [mark_question_answered, h, h1] at htrue
      · rcases hr : pyResolve qs.questions.length idx with _ | r
        · simp [mark_question_answered, h, h1, hr] at htrue
        · rcases hq : qs.questions[r]? with _ | q
          · simp [mark_question_answered, h, h1, hr, hq] at htrue
          · by_cases ha : q.answered
            · simp [mark_question_answered, h, h1, hr, hq, ha] at htrue
            · cases writeOk with
              | false => simp [mark_question_answered, h, h1, hr, hq, ha] at htrue
              | true => exact ⟨rfl, qs, r, q, rfl, hr, hq, by simpa using ha⟩
  · rintro ⟨rfl, qs, r, q, h, hr, hq, ha⟩
    have h1 := (pyResolve_bounds _ _ _ hr).1
    simp [mark_question_answered, h, h1, hr, hq, ha]
  · intro hfalse
    rcases h : alGet st.sessions chat with _ | qs
    · simp [mark_question_answered, h]
    · by_cases h1 : (qs.questions.length : Int) ≤ idx
      · simp [mark_question_answered, h, h1]
      · rcases hr : pyResolve qs.questions.length idx with _ | r
        · simp [mark_question_answered, h, h1, hr]
        · rcases hq : qs.questions[r]? with _ | q
          · simp [mark_question_answered, h, h1, hr, hq]
          · by_cases ha : q.answered
            · simp [mark_question_answered, h, h1, hr, hq, ha]
            · cases writeOk with
              | false => simp [mark_question_answered, h, h1, hr, hq, ha]
              | true => simp [mark_question_answered, h, h1, hr, hq, ha] at hfalse
  · intro qs r q h hr hq htrue
    have h1 := (pyResolve_bounds _ _ _ hr).1
    by_cases ha : q.answered
    · simp [mark_question_answered, h, h1, hr, hq, ha] at htrue
    · cases writeOk with
      | false => simp [mark_question_answered, h, h1, hr, hq, ha] at htrue
      | true => simp [mark_question_answered, h, h1, hr, hq, ha]

/-- C7 witness: the contract evaluated on the live fixture, where marking
question 0 succeeds and produces exactly the expected stored state. -/
theorem C7_witness :
    (mark_question_answered 3 0 "4" true fxStLive).1 = true
    ∧ (mark_question_answered 3 0 "4" true fxStLive).2
        = { fxStLive with
            sessions := alSet fxStLive.sessions 3
              { fxSessLive with
                questions := listModify fxSessLive.questions 0
                  (fun _ => { fxQ with answered := true, answered_by := some "4" }) } } := by
  constructor
  · exact (C7_mark_question_answered_contract fxStLive 3 0 "4" true).1.mpr
      ⟨rfl, fxSessLive, 0, fxQ, by decide, by decide, by decide, by decide⟩
  · exact (C7_mark_question_answered_contract fxStLive 3 0 "4" true).2.2 fxSessLive 0 fxQ
      (by decide) (by decide) (by decide)
      ((C7_mark_question_answered_contract fxStLive 3 0 "4" true).1.mpr
        ⟨rfl, fxSessLive, 0, fxQ, by decide, by decide, by decide, by decide⟩)

/-- C9 (confirmed): for every session in which at most one distinct user has
attempted any question, stop leaves the persistent cross-session leaderboard
document completely unchanged, for every recordWin flag and in particular
with recordWin = true and a positive top score. -/
theorem C9_stop_leaderboard_frame (st : Store) (chat : Int) (recWin : Bool)
    (now : String)
    (h : ∀ qs, load_quiz_state chat st = some qs
      → (distinct_attempters qs).length ≤ 1) :
    (stop_quiz chat recWin now st).2.leaderboard = st.leaderboard :=
  stop_lb_frame chat recWin now st h

/-- C9 witness: a finished session whose only attempter scored 2 points,
stopped with recordWin = true, writes nothing to the leaderboard. -/
theorem C9_witness :
    (∀ qs, load_quiz_state 6 fxStSingle = some qs
      → (distinct_attempters qs).length ≤ 1)
    ∧ (stop_quiz 6 true "t1" fxStSingle).2.leaderboard = fxStSingle.leaderboard := by
  have hyp : ∀ qs, load_quiz_state 6 fxStSingle = some qs
      → (distinct_attempters qs).length ≤ 1 := by
    intro qs hqs
    rw [show load_quiz_state 6 fxStSingle = some fxSessSingle from by decide] at hqs
    cases Option.some.inj hqs
    decide
  exact ⟨hyp, C9_stop_leaderboard_frame fxStSingle 6 true "t1" hyp⟩

/-- C10 (confirmed): in solo mode `process_answer` never records an entry in
any question's attempted set: on a session whose attempted sets are all
empty, any submitAnswer call leaves the persistent leaderboard untouched and
preserves the all-attempted-sets-empty invariant together with the mode
(including when the call completes the quiz and stops it internally with
recordWin = true), and an explicit stop with any recordWin flag also leaves
the leaderboard untouched — even though the hypotheses allow several
distinct users to have scored points in the session. -/
theorem C10_solo_sessions_never_write_wins (st : Store) (chat user : Int)
    (uname : String) (idx : Int) (ans now : String) (recWin : Bool) (qs : QuizState)
    (hwf : sessionsWF st)
    (hqs : load_quiz_state chat st = some qs)
    (hmode : qs.mode = "solo")
    (hemp : ∀ q ∈ qs.questions, q.attempted_by = []) :
    (process_answer chat user uname idx ans now st).2.leaderboard = st.leaderboard
    ∧ (∀ qs1, load_quiz_state chat (process_answer chat user uname idx ans now st).2
          = some qs1 → qs1.mode = "solo" ∧ ∀ q ∈ qs1.questions, q.attempted_by = [])
    ∧ (stop_quiz chat recWin now st).2.leaderboard = st.leaderboard := by
  have h : alGet st.sessions chat = some qs := hqs
  have hd1 : (distinct_attempters qs).length ≤ 1 := distinct_attempters_le_one qs hemp
  have hstop : (stop_quiz chat recWin now st).2.leaderboard = st.leaderboard := by
    refine stop_lb_frame chat recWin now st ?_
    intro qs' hq'
    rw [h] at hq'
    cases Option.some.inj hq'
    exact hd1
  have hmnotmulti : (qs.mode == "multi") = false := by
    rw [hmode]; decide
  have hmsolo : (qs.mode == "solo") = true := by
    rw [hmode]; decide
  -- helper closing both process_answer conclusions when the result store is st
  have hsame : ∀ e : AnswerResult × Store, e.2 = st →
      (e.2.leaderboard = st.leaderboard
        ∧ ∀ qs1, load_quiz_state chat e.2 = some qs1
            → qs1.mode = "solo" ∧ ∀ q ∈ qs1.questions, q.attempted_by = []) := by
    intro e he
    rw [he]
    refine ⟨rfl, ?_⟩
    intro qs1 hqs1
    rw [hqs] at hqs1
    cases Option.some.inj hqs1
    exact ⟨hmode, hemp⟩
  by_cases hact : qs.active
  case neg =>
    have hpe : process_answer chat user uname idx ans now st = (answerError "no_quiz", st) := by
      simp [process_answer, is_quiz_active_eq chat st qs h, hact]
    rcases hsame (process_answer chat user uname idx ans now st) (by rw [hpe]) with ⟨c1, c2⟩
    exact ⟨c1, c2, hstop⟩
  case pos =>
    by_cases hneg : idx < 0
    · have hpe : process_answer chat user uname idx ans now st
          = (answerError "invalid_question", st) := by
        simp [process_answer, is_quiz_active_eq chat st qs h, hact, hqs, hneg]
      rcases hsame (process_answer chat user uname idx ans now st) (by rw [hpe]) with ⟨c1, c2⟩
      exact ⟨c1, c2, hstop⟩
    · by_cases hlen : (qs.questions.length : Int) ≤ idx
      · have hpe : process_answer chat user uname idx ans now st
            = (answerError "invalid_question", st) := by
          simp [process_answer, is_quiz_active_eq chat st qs h, hact, hqs, hneg, hlen]
        rcases hsame (process_answer chat user uname idx ans now st) (by rw [hpe]) with ⟨c1, c2⟩
        exact ⟨c1, c2, hstop⟩
      · -- valid index: the addressed question exists
        rcases hgq : qs.questions[idx.toNat]? with _ | q0
        · exfalso
          have hlen2 : qs.questions.length ≤ idx.toNat := by
            simpa using List.getElem?_eq_none_iff.mp hgq
          omega
        · -- the addressed question is q0
          suffices hboth : (process_answer chat user uname idx ans now st).2.leaderboard
                = st.leaderboard
              ∧ ∀ qs1, load_quiz_state chat
                    (process_answer chat user uname idx ans now st).2 = some qs1
                  → qs1.mode = "solo" ∧ ∀ q ∈ qs1.questions, q.attempted_by = [] by
            exact ⟨hboth.1, hboth.2, hstop⟩
          by_cases hcorr : (pyStrip ans == pyStrip q0.correct_answer) = true
          · -- a correct answer: one point is added through update_scores first
            obtain ⟨st2, hupd, h2, hlb2, hwf2⟩ :
                ∃ st2, update_scores chat user uname 1 true st = .ok st2
                  ∧ alGet st2.sessions chat
                      = some { qs with scores := bumpScore qs.scores user uname 1 }
                  ∧ st2.leaderboard = st.leaderboard
                  ∧ sessionsWF st2 :=
              ⟨_, upd_eq chat user uname 1 st qs h, alGet_alSet_self _ _ _, rfl,
                nodup_alSet _ _ _ hwf⟩
            obtain ⟨qs2, hqs2⟩ :
                ∃ x, ({ qs with scores := bumpScore qs.scores user uname 1 } : QuizState)
                  = x := ⟨_, rfl⟩
            rw [hqs2] at h2
            have hq2q : qs2.questions = qs.questions := by
              rw [← hqs2]
            have hm2 : qs2.mode = "solo" := by
              rw [← hqs2]
              exact hmode
            by_cases hcur : idx = (qs.current_question : Int)
            · have hcureq : (idx == (qs.current_question : Int)) = true := by
                simp [hcur]
              by_cases hsa : qs.creator_id = some user
              · have hsaeq : (qs.creator_id == some user) = true := by
                  simp [hsa]
                obtain ⟨qs3, hqs3⟩ : ∃ x, answerMark qs2 idx ans = x := ⟨_, rfl⟩
                have h3 : alGet (mark_question_answered chat idx ans true st2).2.sessions chat
                    = some qs3 := by
                  rw [← hqs3]
                  exact mqa_get chat idx ans st2 qs2 h2
                have hwf3 : sessionsWF (mark_question_answered chat idx ans true st2).2 :=
                  mqa_wf chat idx ans true st2 hwf2
                have hemp3 : ∀ q ∈ qs3.questions, q.attempted_by = [] := by
                  rw [← hqs3]
                  refine answerMark_attempted_all qs2 idx ans ?_
                  rw [hq2q]
                  exact hemp
                have hm3 : qs3.mode = "solo" := by
                  rw [← hqs3, answerMark_mode]
                  exact hm2
                obtain ⟨st4, hst4⟩ :
                    ∃ s : Store,
                      ({ (mark_question_answered chat idx ans true st2).2 with
                          sessions := alSet
                            (mark_question_answered chat idx ans true st2).2.sessions chat
                            (advanceState qs3) } : Store) = s :=
                  ⟨_, rfl⟩
                have hadv4 : advance_to_next_question chat true
                      (mark_question_answered chat idx ans true st2).2
                    = (decide (qs3.current_question + 1 < qs3.questions.length), st4) := by
                  rw [← hst4]
                  exact adv_eq chat _ qs3 h3
                have h4 : alGet st4.sessions chat = some (advanceState qs3) := by
                  rw [← hst4]
                  exact alGet_alSet_self _ _ _
                have hlb4 : st4.leaderboard = st.leaderboard := by
                  rw [← hst4]
                  simp [mqa_lb, hlb2]
                have hwf4 : sessionsWF st4 := by
                  rw [← hst4]
                  exact nodup_alSet _ _ _ hwf3
                have hadvprops : (advanceState qs3).mode = "solo"
                    ∧ ∀ q ∈ (advanceState qs3).questions, q.attempted_by = [] := by
                  constructor
                  · rw [advanceState_mode]
                    exact hm3
                  · rw [advanceState_questions]
                    exact hemp3
                by_cases hflag : qs3.current_question + 1 < qs3.questions.length
                · have hres : (process_answer chat user uname idx ans now st).2 = st4 := by
                    simp [process_answer, load_quiz_state, h, is_quiz_active_eq chat st qs h,
                      hact, hneg, hlen, hgq, hmode, hcorr, hupd, hcureq, hsaeq, hadv4, hflag]
                  rw [hres]
                  refine ⟨hlb4, ?_⟩
                  intro qs1 hqs1
                  have hqs1a : alGet st4.sessions chat = some qs1 := hqs1
                  rw [h4] at hqs1a
                  cases Option.some.inj hqs1a
                  exact hadvprops
                · have hgate : ∀ qs', alGet st4.sessions chat = some qs'
                      → (distinct_attempters qs').length ≤ 1 := by
                    intro qs' hq'
                    rw [h4] at hq'
                    cases Option.some.inj hq'
                    exact distinct_attempters_le_one _ hadvprops.2
                  have hres : (process_answer chat user uname idx ans now st).2
                      = (stop_quiz chat true now st4).2 := by
                    simp [process_answer, load_quiz_state, h, is_quiz_active_eq chat st qs h,
                      hact, hneg, hlen, hgq, hmode, hcorr, hupd, hcureq, hsaeq, hadv4, hflag]
                  rw [hres]
                  constructor
                  · rw [stop_lb_frame chat true now st4 hgate]
                    exact hlb4
                  · intro qs1 hqs1
                    have hqs1a : alGet (stop_quiz chat true now st4).2.sessions chat
                        = some qs1 := hqs1
                    rcases stop_split chat true now st4 (advanceState qs3) h4 with
                      ⟨hfail, hsame2⟩ | ⟨hok, lb, hdone⟩
                    · rw [hsame2, h4] at hqs1a
                      cases Option.some.inj hqs1a
                      exact hadvprops
                    · rw [hdone] at hqs1a
                      have hqs1b : alGet (alRemove st4.sessions chat) chat = some qs1 := hqs1a
                      rw [alGet_alRemove_self st4.sessions chat hwf4] at hqs1b
                      cases hqs1b
              · have hsaeq : (qs.creator_id == some user) = false := by
                  simp [hsa]
                have hres : (process_answer chat user uname idx ans now st).2 = st2 := by
                  simp [process_answer, load_quiz_state, h, is_quiz_active_eq chat st qs h,
                    hact, hneg, hlen, hgq, hmode, hcorr, hupd, hcureq, hsaeq]
                rw [hres]
                refine ⟨hlb2, ?_⟩
                intro qs1 hqs1
                have hqs1a : alGet st2.sessions chat = some qs1 := hqs1
                rw [h2] at hqs1a
                cases Option.some.inj hqs1a
                refine ⟨hm2, ?_⟩
                rw [hq2q]
                exact hemp
            · have hcureq : (idx == (qs.current_question : Int)) = false := by
                simp [hcur]
              have hres : (process_answer chat user uname idx ans now st).2 = st2 := by
                simp [process_answer, load_quiz_state, h, is_quiz_active_eq chat st qs h,
                  hact, hneg, hlen, hgq, hmode, hcorr, hupd, hcureq]
              rw [hres]
              refine ⟨hlb2, ?_⟩
              intro qs1 hqs1
              have hqs1a : alGet st2.sessions chat = some qs1 := hqs1
              rw [h2] at hqs1a
              cases Option.some.inj hqs1a
              refine ⟨hm2, ?_⟩
              rw [hq2q]
              exact hemp
          · -- a wrong answer: no point is awarded and the score step keeps the store
            have h2 : alGet st.sessions chat = some qs := h
            have hlb2 : st.leaderboard = st.leaderboard := rfl
            have hwf2 : sessionsWF st := hwf
            have hq2q : qs.questions = qs.questions := rfl
            have hm2 : qs.mode = "solo" := hmode
            by_cases hcur : idx = (qs.current_question : Int)
            · have hcureq : (idx == (qs.current_question : Int)) = true := by
                simp [hcur]
              by_cases hsa : qs.creator_id = some user
              · have hsaeq : (qs.creator_id == some user) = true := by
                  simp [hsa]
                obtain ⟨qs3, hqs3⟩ : ∃ x, answerMark qs idx ans = x := ⟨_, rfl⟩
                have h3 : alGet (mark_question_answered chat idx ans true st).2.sessions chat
                    = some qs3 := by
                  rw [← hqs3]
                  exact mqa_get chat idx ans st qs h2
                have hwf3 : sessionsWF (mark_question_answered chat idx ans true st).2 :=
                  mqa_wf chat idx ans true st hwf2
                have hemp3 : ∀ q ∈ qs3.questions, q.attempted_by = [] := by
                  rw [← hqs3]
                  refine answerMark_attempted_all qs idx ans ?_
                  rw [hq2q]
                  exact hemp
                have hm3 : qs3.mode = "solo" := by
                  rw [← hqs3, answerMark_mode]
                  exact hm2
                obtain ⟨st4, hst4⟩ :
                    ∃ s : Store,
                      ({ (mark_question_answered chat idx ans true st).2 with
                          sessions := alSet
                            (mark_question_answered chat idx ans true st).2.sessions chat
                            (advanceState qs3) } : Store) = s :=
                  ⟨_, rfl⟩
                have hadv4 : advance_to_next_question chat true
                      (mark_question_answered chat idx ans true st).2
                    = (decide (qs3.current_question + 1 < qs3.questions.length), st4) := by
                  rw [← hst4]
                  exact adv_eq chat _ qs3 h3
                have h4 : alGet st4.sessions chat = some (advanceState qs3) := by
                  rw [← hst4]
                  exact alGet_alSet_self _ _ _
                have hlb4 : st4.leaderboard = st.leaderboard := by
                  rw [← hst4]
                  simp [mqa_lb, hlb2]
                have hwf4 : sessionsWF st4 := by
                  rw [← hst4]
                  exact nodup_alSet _ _ _ hwf3
                have hadvprops : (advanceState qs3).mode = "solo"
                    ∧ ∀ q ∈ (advanceState qs3).questions, q.attempted_by = [] := by
                  constructor
                  · rw [advanceState_mode]
                    exact hm3
                  · rw [advanceState_questions]
                    exact hemp3
                by_cases hflag : qs3.current_question + 1 < qs3.questions.length
                · have hres : (process_answer chat user uname idx ans now st).2 = st4 := by
                    simp [process_answer, load_quiz_state, h, is_quiz_active_eq chat st qs h,
                      hact, hneg, hlen, hgq, hmode, hcorr, hcureq, hsaeq, hadv4, hflag]
                  rw [hres]
                  refine ⟨hlb4, ?_⟩
                  intro qs1 hqs1
                  have hqs1a : alGet st4.sessions chat = some qs1 := hqs1
                  rw [h4] at hqs1a
                  cases Option.some.inj hqs1a
                  exact hadvprops
                · have hgate : ∀ qs', alGet st4.sessions chat = some qs'
                      → (distinct_attempters qs').length ≤ 1 := by
                    intro qs' hq'
                    rw [h4] at hq'
                    cases Option.some.inj hq'
                    exact distinct_attempters_le_one _ hadvprops.2
                  have hres : (process_answer chat user uname idx ans now st).2
                      = (stop_quiz chat true now st4).2 := by
                    simp [process_answer, load_quiz_state, h, is_quiz_active_eq chat st qs h,
                      hact, hneg, hlen, hgq, hmode, hcorr, hcureq, hsaeq, hadv4, hflag]
                  rw [hres]
                  constructor
                  · rw [stop_lb_frame chat true now st4 hgate]
                    exact hlb4
                  · intro qs1 hqs1
                    have hqs1a : alGet (stop_quiz chat true now st4).2.sessions chat
                        = some qs1 := hqs1
                    rcases stop_split chat true now st4 (advanceState qs3) h4 with
                      ⟨hfail, hsame2⟩ | ⟨hok, lb, hdone⟩
                    · rw [hsame2, h4] at hqs1a
                      cases Option.some.inj hqs1a
                      exact hadvprops
                    · rw [hdone] at hqs1a
                      have hqs1b : alGet (alRemove st4.sessions chat) chat = some qs1 := hqs1a
                      rw [alGet_alRemove_self st4.sessions chat hwf4] at hqs1b
                      cases hqs1b
              · have hsaeq : (qs.creator_id == some user) = false := by
                  simp [hsa]
                have hres : (process_answer chat user uname idx ans now st).2 = st := by
                  simp [process_answer, load_quiz_state, h, is_quiz_active_eq chat st qs h,
                    hact, hneg, hlen, hgq, hmode, hcorr, hcureq, hsaeq]
                rw [hres]
                refine ⟨hlb2, ?_⟩
                intro qs1 hqs1
                have hqs1a : alGet st.sessions chat = some qs1 := hqs1
                rw [h2] at hqs1a
                cases Option.some.inj hqs1a
                refine ⟨hm2, ?_⟩
                rw [hq2q]
                exact hemp
            · have hcureq : (idx == (qs.current_question : Int)) = false := by
                simp [hcur]
              have hres : (process_answer chat user uname idx ans now st).2 = st := by
                simp [process_answer, load_quiz_state, h, is_quiz_active_eq chat st qs h,
                  hact, hneg, hlen, hgq, hmode, hcorr, hcureq]
              rw [hres]
              refine ⟨hlb2, ?_⟩
              intro qs1 hqs1
              have hqs1a : alGet st.sessions chat = some qs1 := hqs1
              rw [h2] at hqs1a
              cases Option.some.inj hqs1a
              refine ⟨hm2, ?_⟩
              rw [hq2q]
              exact hemp

/-- C10 witness: a solo session with two scoring users and empty attempted
sets; a correct answer by a non-creator and an explicit stop with
recordWin = true both leave the leaderboard unchanged. -/
theorem C10_witness :
    (process_answer 5 11 "bob" 0 "4" "t1" fxStSolo).2.leaderboard = fxStSolo.leaderboard
    ∧ (stop_quiz 5 true "t1" fxStSolo).2.leaderboard = fxStSolo.leaderboard := by
  have hyp := C10_solo_sessions_never_write_wins fxStSolo 5 11 "bob" 0 "4" "t1" true
    fxSessSolo (by unfold sessionsWF; decide) (by decide) (by decide) (by decide)
  exact ⟨hyp.1, hyp.2.2⟩

theorem answerMark_active (qs : QuizState) (idx : Int) (ans : String) :
    (answerMark qs idx ans).active = qs.active := by
  unfold answerMark
  repeat' split
  all_goals rfl

theorem advanceState_active_of_lt (qs : QuizState)
    (h : qs.current_question + 1 < qs.questions.length) :
    (advanceState qs).active = qs.active := by
  unfold advanceState
  rw [if_neg (Nat.not_le.mpr h)]

theorem advanceState_active_of_ge (qs : QuizState)
    (h : ¬ qs.current_question + 1 < qs.questions.length) :
    (advanceState qs).active = false := by
  unfold advanceState
  rw [if_pos (Nat.not_lt.mp h)]

/-- C8 counterexample: in a one-question multi session a correct first
answer completes and clears the session, so the same user's second call on
the same question is rejected with NoActiveSession, not AlreadyAttempted. -/
theorem C8_completed_quiz_rejects_with_no_quiz :
    (process_answer 3 10 "alice" 0 "4" "t1" fxStLive).1.is_correct = some true
    ∧ (process_answer 3 10 "alice" 0 "4" "t2"
        (process_answer 3 10 "alice" 0 "4" "t1" fxStLive).2).1.error_type = some "no_quiz"
    ∧ ("no_quiz" : String) ≠ "already_attempted" := by
  decide

/-- C8 amended: in multi mode, for a user who has not yet attempted the
in-range question of an active session, after a first submitAnswer call a
second call by the same user on the same question is rejected with the
AlreadyAttempted error and changes no state — regardless of whether the
first answer was correct or incorrect — provided a session is still active
in the chat when the second call arrives (a correct first answer on the
final question completes and clears the session instead). -/
theorem C8_amended_repeat_attempt_rejected (st : Store) (chat user : Int)
    (uname1 uname2 : String) (idx : Int) (ans1 ans2 now1 now2 : String) (qs : QuizState)
    (hwf : sessionsWF st)
    (h : load_quiz_state chat st = some qs)
    (hact : qs.active = true)
    (hmode : qs.mode = "multi")
    (h0 : 0 ≤ idx) (hlt : idx < (qs.questions.length : Int))
    (hchk : check_user_attempted_question chat idx user st = false)
    (hact2 : is_quiz_active chat
      (process_answer chat user uname1 idx ans1 now1 st).2 = true) :
    process_answer chat user uname2 idx ans2 now2
        (process_answer chat user uname1 idx ans1 now1 st).2
      = (answerError "already_attempted",
         (process_answer chat user uname1 idx ans1 now1 st).2) := by
  have halg : alGet st.sessions chat = some qs := h
  have hneg : ¬ idx < 0 := by omega
  have hlen : ¬ (qs.questions.length : Int) ≤ idx := by omega
  have hr0 : pyResolve qs.questions.length idx = some idx.toNat :=
    pyResolve_nonneg _ _ h0 hlt
  obtain ⟨q0, hgq⟩ : ∃ q0, qs.questions[idx.toNat]? = some q0 := by
    rcases hx : qs.questions[idx.toNat]? with _ | q0
    · exfalso
      have hxx : qs.questions.length ≤ idx.toNat := by
        simpa using List.getElem?_eq_none_iff.mp hx
      omega
    · exact ⟨q0, rfl⟩
  obtain ⟨st1, hst1⟩ : ∃ s, (mark_user_attempted_question chat idx user true st).2 = s :=
    ⟨_, rfl⟩
  obtain ⟨qsA, hqsA⟩ : ∃ x, attemptMark qs idx user = x := ⟨_, rfl⟩
  have h1 : alGet st1.sessions chat = some qsA := by
    rw [← hst1, ← hqsA]
    exact mua_get chat idx user st qs halg
  obtain ⟨qA, hgqA, hmemA⟩ :
      ∃ q', qsA.questions[idx.toNat]? = some q' ∧ user ∈ q'.attempted_by := by
    rw [← hqsA]
    exact attemptMark_mem qs idx user idx.toNat q0 hr0 hgq
  have hAlen : qsA.questions.length = qs.questions.length := by
    rw [← hqsA]
    exact attemptMark_len qs idx user
  have hAmode : qsA.mode = "multi" := by
    rw [← hqsA, attemptMark_mode]
    exact hmode
  have hAact : qsA.active = true := by
    rw [← hqsA, attemptMark_active]
    exact hact
  have hwf1 : sessionsWF st1 := by
    rw [← hst1]
    exact mua_wf chat idx user true st hwf
  have hmmulti : (qs.mode == "multi") = true := by
    rw [hmode]
    decide
  have hmnotsolo : (qs.mode == "solo") = false := by
    rw [hmode]
    decide
  have hsecond : ∀ (stX : Store) (qsX : QuizState) (qX : Question),
      alGet stX.sessions chat = some qsX → qsX.active = true → qsX.mode = "multi"
      → qsX.questions.length = qs.questions.length
      → qsX.questions[idx.toNat]? = some qX → user ∈ qX.attempted_by
      → process_answer chat user uname2 idx ans2 now2 stX
          = (answerError "already_attempted", stX) := by
    intro stX qsX qX hX hactX hmodeX hlenX hgqX hmemX
    have hlenX2 : ¬ (qsX.questions.length : Int) ≤ idx := by
      rw [hlenX]
      exact hlen
    have hrX : pyResolve qsX.questions.length idx = some idx.toNat := by
      rw [hlenX]
      exact hr0
    have hchkX : check_user_attempted_question chat idx user stX = true := by
      rw [check_attempted_eq chat idx user stX qsX idx.toNat qX hX hrX hgqX]
      simpa using hmemX
    have hmX : (qsX.mode == "multi") = true := by
      rw [hmodeX]
      decide
    simp [process_answer, load_quiz_state, hX, is_quiz_active_eq chat stX qsX hX, hactX,
      hneg, hlenX2, hmX, hchkX]
  by_cases hcorr : (pyStrip ans1 == pyStrip q0.correct_answer) = true
  · obtain ⟨st2, hupd, h2pre, hwf2⟩ :
        ∃ s, update_scores chat user uname1 1 true st1 = .ok s
          ∧ alGet s.sessions chat
              = some { qsA with scores := bumpScore qsA.scores user uname1 1 }
          ∧ sessionsWF s :=
      ⟨_, upd_eq chat user uname1 1 st1 qsA h1, alGet_alSet_self _ _ _,
        nodup_alSet _ _ _ hwf1⟩
    obtain ⟨qs2, hqs2⟩ :
        ∃ x, ({ qsA with scores := bumpScore qsA.scores user uname1 1 } : QuizState) = x :=
      ⟨_, rfl⟩
    rw [hqs2] at h2pre
    have h2 : alGet st2.sessions chat = some qs2 := h2pre
    have hq2q : qs2.questions = qsA.questions := by
      rw [← hqs2]
    have hm2 : qs2.mode = "multi" := by
      rw [← hqs2]
      exact hAmode
    have hact2q : qs2.active = true := by
      rw [← hqs2]
      exact hAact
    by_cases hcur : idx = (qs.current_question : Int)
    · have hcureq : (idx == (qs.current_question : Int)) = true := by
        simp [hcur]
      obtain ⟨qs3, hqs3⟩ : ∃ x, answerMark qs2 idx ans1 = x := ⟨_, rfl⟩
      have h3 : alGet (mark_question_answered chat idx ans1 true st2).2.sessions chat
          = some qs3 := by
        rw [← hqs3]
        exact mqa_get chat idx ans1 st2 qs2 h2
      have hwf3 : sessionsWF (mark_question_answered chat idx ans1 true st2).2 :=
        mqa_wf chat idx ans1 true st2 hwf2
      have h3len : qs3.questions.length = qs.questions.length := by
        rw [← hqs3, answerMark_len, hq2q]
        exact hAlen
      have h3mode : qs3.mode = "multi" := by
        rw [← hqs3, answerMark_mode]
        exact hm2
      have h3act : qs3.active = true := by
        rw [← hqs3, answerMark_active]
        exact hact2q
      obtain ⟨qB, hgqB, hmemB⟩ :
          ∃ qB, qs3.questions[idx.toNat]? = some qB ∧ user ∈ qB.attempted_by := by
        have hpt := answerMark_attempted qs2 idx ans1 idx.toNat
        rw [hqs3, hq2q, hgqA] at hpt
        rcases hy : qs3.questions[idx.toNat]? with _ | qB
        · rw [hy] at hpt
          simp at hpt
        · rw [hy] at hpt
          refine ⟨qB, rfl, ?_⟩
          have hba : qB.attempted_by = qA.attempted_by := by
            simpa using hpt
          rw [hba]
          exact hmemA
      obtain ⟨st4, hst4⟩ :
          ∃ s : Store,
            ({ (mark_question_answered chat idx ans1 true st2).2 with
                sessions := alSet
                  (mark_question_answered chat idx ans1 true st2).2.sessions chat
                  (advanceState qs3) } : Store) = s :=
        ⟨_, rfl⟩
      have hadv4 : advance_to_next_question chat true
            (mark_question_answered chat idx ans1 true st2).2
          = (decide (qs3.current_question + 1 < qs3.questions.length), st4) := by
        rw [← hst4]
        exact adv_eq chat _ qs3 h3
      have h4 : alGet st4.sessions chat = some (advanceState qs3) := by
        rw [← hst4]
        exact alGet_alSet_self _ _ _
      have hwf4 : sessionsWF st4 := by
        rw [← hst4]
        exact nodup_alSet _ _ _ hwf3
      by_cases hflag : qs3.current_question + 1 < qs3.questions.length
      · have hres : (process_answer chat user uname1 idx ans1 now1 st).2 = st4 := by
          simp [process_answer, load_quiz_state, halg, is_quiz_active_eq chat st qs halg,
            hact, hneg, hlen, hgq, hmmulti, hmnotsolo, hchk, hst1, hcorr, hupd, hcureq,
            hadv4, hflag]
        rw [hres]
        exact hsecond st4 (advanceState qs3) qB h4
          (by rw [advanceState_active_of_lt qs3 hflag]; exact h3act)
          (by rw [advanceState_mode]; exact h3mode)
          (by rw [advanceState_questions]; exact h3len)
          (by rw [advanceState_questions]; exact hgqB)
          hmemB
      · exfalso
        have hres : (process_answer chat user uname1 idx ans1 now1 st).2
            = (stop_quiz chat true now1 st4).2 := by
          simp [process_answer, load_quiz_state, halg, is_quiz_active_eq chat st qs halg,
            hact, hneg, hlen, hgq, hmmulti, hmnotsolo, hchk, hst1, hcorr, hupd, hcureq,
            hadv4, hflag]
        rw [hres] at hact2
        rcases stop_split chat true now1 st4 (advanceState qs3) h4 with
          ⟨hfail, hsame2⟩ | ⟨hok, lb, hdone⟩
        · rw [hsame2, is_quiz_active_eq chat st4 (advanceState qs3) h4,
            advanceState_active_of_ge qs3 hflag] at hact2
          cases hact2
        · rw [hdone] at hact2
          have hoff : is_quiz_active chat
              ({ sessions := alRemove st4.sessions chat, leaderboard := lb } : Store)
              = false :=
            is_quiz_active_none chat _ (alGet_alRemove_self st4.sessions chat hwf4)
          rw [hoff] at hact2
          cases hact2
    · have hcureq : (idx == (qs.current_question : Int)) = false := by
        simp [hcur]
      have hres : (process_answer chat user uname1 idx ans1 now1 st).2 = st2 := by
        simp [process_answer, load_quiz_state, halg, is_quiz_active_eq chat st qs halg,
          hact, hneg, hlen, hgq, hmmulti, hmnotsolo, hchk, hst1, hcorr, hupd, hcureq]
      rw [hres]
      exact hsecond st2 qs2 qA h2 hact2q hm2
        (by rw [hq2q]; exact hAlen)
        (by rw [hq2q]; exact hgqA)
        hmemA
  · have h2 : alGet st1.sessions chat = some qsA := h1
    have hq2q : qsA.questions = qsA.questions := rfl
    have hm2 : qsA.mode = "multi" := hAmode
    have hact2q : qsA.active = true := hAact
    have hwf2 : sessionsWF st1 := hwf1
    by_cases hcur : idx = (qs.current_question : Int)
    · have hcureq : (idx == (qs.current_question : Int)) = true := by
        simp [hcur]
      have hres : (process_answer chat user uname1 idx ans1 now1 st).2 = st1 := by
        simp [process_answer, load_quiz_state, halg, is_quiz_active_eq chat st qs halg,
          hact, hneg, hlen, hgq, hmmulti, hmnotsolo, hchk, hst1, hcorr,  hcureq]
      rw [hres]
      exact hsecond st1 qsA qA h2 hact2q hm2
        (by rw [hq2q]; exact hAlen)
        (by rw [hq2q]; exact hgqA)
        hmemA
    · have hcureq : (idx == (qs.current_question : Int)) = false := by
        simp [hcur]
      have hres : (process_answer chat user uname1 idx ans1 now1 st).2 = st1 := by
        simp [process_answer, load_quiz_state, halg, is_quiz_active_eq chat st qs halg,
          hact, hneg, hlen, hgq, hmmulti, hmnotsolo, hchk, hst1, hcorr,  hcureq]
      rw [hres]
      exact hsecond st1 qsA qA h2 hact2q hm2
        (by rw [hq2q]; exact hAlen)
        (by rw [hq2q]; exact hgqA)
        hmemA

/-- C8 witness: on the two-question multi fixture, a correct first answer
advances but keeps the session active, and the second call by the same user
on question 0 is rejected with AlreadyAttempted and no state change. -/
theorem C8_witness :
    is_quiz_active 3 (process_answer 3 10 "alice" 0 "4" "t1" fxStLive2).2 = true
    ∧ process_answer 3 10 "alice" 0 "4" "t2"
        (process_answer 3 10 "alice" 0 "4" "t1" fxStLive2).2
      = (answerError "already_attempted",
         (process_answer 3 10 "alice" 0 "4" "t1" fxStLive2).2) := by
  refine ⟨by decide, ?_⟩
  exact C8_amended_repeat_attempt_rejected fxStLive2 3 10 "alice" "alice" 0 "4" "4"
    "t1" "t2" fxSessLive2 (by unfold sessionsWF; decide) (by decide) (by decide)
    (by decide) (by decide) (by decide) (by decide) (by decide)

theorem bumpScore_get (scores : List (Int × ScoreEntry)) (user : Int) (uname : String)
    (pts : Int) :
    alGet (bumpScore scores user uname pts) user
      = some { username := uname,
               points := ((alGet scores user).map ScoreEntry.points).getD 0 + pts } := by
  unfold bumpScore
  rcases hx : alGet scores user with _ | e
  · simp [hx, alGet_alSet_self]
  · simp [hx, alGet_alSet_self]

theorem get_leaderboard_data_eq (chat : Int) (st : Store) (qs : QuizState)
    (h : alGet st.sessions chat = some qs) :
    get_leaderboard_data chat st
      = pySortDesc (fun b a => decide (a.points ≤ b.points))
          (qs.scores.map (fun p =>
            { user_id := p.1, username := p.2.username, points := p.2.points })) := by
  simp [get_leaderboard_data, load_quiz_state, h]

/-- C6: the source compares the whitespace-stripped answer with the stripped
correct answer, so the answer text " 4" (which is not equal to the stored
correct answer "4") is reported correct and awarded the point. -/
theorem C6_whitespace_answer_reported_correct :
    (process_answer 3 10 "alice" 0 " 4" "t1" fxStLive).1.is_correct = some true
    ∧ (process_answer 3 10 "alice" 0 " 4" "t1" fxStLive).1.points_awarded = some 1
    ∧ (" 4" : String) ≠ "4"
    ∧ fxQ.correct_answer = "4" := by
  refine ⟨by decide, by decide, by decide, by decide⟩

/-- C6 (amended): on an active session with an in-range index (and, in multi
mode, no prior attempt by the user), the reported correctness equals equality
of the whitespace-stripped answer and stripped correct answer; exactly when
they are equal one point is awarded, the score entry is created if absent
with the username refreshed, and the surviving session (or, on completion,
the final leaderboard) carries the incremented scores. -/
theorem C6_amended_stripped_equality_scoring (st : Store) (chat user : Int)
    (uname : String) (idx : Int) (ans now : String) (qs : QuizState) (q0 : Question)
    (hwf : sessionsWF st)
    (h : load_quiz_state chat st = some qs)
    (hact : qs.active = true)
    (h0 : 0 ≤ idx) (hlt : idx < (qs.questions.length : Int))
    (hgq : qs.questions[idx.toNat]? = some q0)
    (hnorep : qs.mode = "multi" → check_user_attempted_question chat idx user st = false) :
    (process_answer chat user uname idx ans now st).1.success = true
    ∧ (process_answer chat user uname idx ans now st).1.is_correct
        = some (pyStrip ans == pyStrip q0.correct_answer)
    ∧ (process_answer chat user uname idx ans now st).1.points_awarded
        = some (if (pyStrip ans == pyStrip q0.correct_answer) = true then (1 : Int) else 0)
    ∧ ((pyStrip ans == pyStrip q0.correct_answer) = true →
        alGet (bumpScore qs.scores user uname 1) user
          = some { username := uname,
                   points := ((alGet qs.scores user).map ScoreEntry.points).getD 0 + 1 })
    ∧ (∀ qs1, load_quiz_state chat (process_answer chat user uname idx ans now st).2
          = some qs1 →
        qs1.scores = (if (pyStrip ans == pyStrip q0.correct_answer) = true
                      then bumpScore qs.scores user uname 1 else qs.scores))
    ∧ (load_quiz_state chat (process_answer chat user uname idx ans now st).2 = none →
        (process_answer chat user uname idx ans now st).1.final_leaderboard
          = some (true, pySortDesc (fun b a => decide (a.points ≤ b.points))
              ((if (pyStrip ans == pyStrip q0.correct_answer) = true
                then bumpScore qs.scores user uname 1 else qs.scores).map
                (fun p => { user_id := p.1, username := p.2.username,
                            points := p.2.points })))) := by
  have halg : alGet st.sessions chat = some qs := h
  have hneg : ¬ idx < 0 := by omega
  have hlen : ¬ (qs.questions.length : Int) ≤ idx := by omega
  have hr0 : pyResolve qs.questions.length idx = some idx.toNat :=
    pyResolve_nonneg _ _ h0 hlt
  have hbump := bumpScore_get qs.scores user uname 1
  by_cases hm1 : qs.mode = "multi"
  · -- multi mode: the attempt is recorded first
    have hchk : check_user_attempted_question chat idx user st = false := hnorep hm1
    have hmmulti : (qs.mode == "multi") = true := by
      rw [hm1]
      decide
    have hmnotsolo : (qs.mode == "solo") = false := by
      rw [hm1]
      decide
    obtain ⟨st1, hst1⟩ : ∃ s, (mark_user_attempted_question chat idx user true st).2 = s :=
      ⟨_, rfl⟩
    obtain ⟨qsA, hqsA⟩ : ∃ x, attemptMark qs idx user = x := ⟨_, rfl⟩
    have h1 : alGet st1.sessions chat = some qsA := by
      rw [← hst1, ← hqsA]
      exact mua_get chat idx user st qs halg
    have hAscores : qsA.scores = qs.scores := by
      rw [← hqsA]
      exact attemptMark_scores qs idx user
    have hwf1 : sessionsWF st1 := by
      rw [← hst1]
      exact mua_wf chat idx user true st hwf
    by_cases hcorr : (pyStrip ans == pyStrip q0.correct_answer) = true
    · obtain ⟨st2, hupd, h2pre, hwf2⟩ :
          ∃ s, update_scores chat user uname 1 true st1 = .ok s
            ∧ alGet s.sessions chat
                = some { qsA with scores := bumpScore qsA.scores user uname 1 }
            ∧ sessionsWF s :=
        ⟨_, upd_eq chat user uname 1 st1 qsA h1, alGet_alSet_self _ _ _,
          nodup_alSet _ _ _ hwf1⟩
      obtain ⟨qs2, hqs2⟩ :
          ∃ x, ({ qsA with scores := bumpScore qsA.scores user uname 1 } : QuizState) = x :=
        ⟨_, rfl⟩
      rw [hqs2] at h2pre
      have h2 : alGet st2.sessions chat = some qs2 := h2pre
      have hq2s : qs2.scores = bumpScore qs.scores user uname 1 := by
        rw [← hqs2]
        simp [hAscores]
      by_cases hcur : idx = (qs.current_question : Int)
      · have hcureq : (idx == (qs.current_question : Int)) = true := by
          simp [hcur]
        obtain ⟨qs3, hqs3⟩ : ∃ x, answerMark qs2 idx ans = x := ⟨_, rfl⟩
        have h3 : alGet (mark_question_answered chat idx ans true st2).2.sessions chat
            = some qs3 := by
          rw [← hqs3]
          exact mqa_get chat idx ans st2 qs2 h2
        have hwf3 : sessionsWF (mark_question_answered chat idx ans true st2).2 :=
          mqa_wf chat idx ans true st2 hwf2
        have hq3s : qs3.scores = bumpScore qs.scores user uname 1 := by
          rw [← hqs3, answerMark_scores]
          exact hq2s
        obtain ⟨st4, hst4⟩ :
            ∃ s : Store,
              ({ (mark_question_answered chat idx ans true st2).2 with
                  sessions := alSet
                    (mark_question_answered chat idx ans true st2).2.sessions chat
                    (advanceState qs3) } : Store) = s :=
          ⟨_, rfl⟩
        have hadv4 : advance_to_next_question chat true
              (mark_question_answered chat idx ans true st2).2
            = (decide (qs3.current_question + 1 < qs3.questions.length), st4) := by
          rw [← hst4]
          exact adv_eq chat _ qs3 h3
        have h4 : alGet st4.sessions chat = some (advanceState qs3) := by
          rw [← hst4]
          exact alGet_alSet_self _ _ _
        have hwf4 : sessionsWF st4 := by
          rw [← hst4]
          exact nodup_alSet _ _ _ hwf3
        by_cases hflag : qs3.current_question + 1 < qs3.questions.length
        · simp [process_answer, load_quiz_state, halg, is_quiz_active_eq chat st qs halg,
            hact, hneg, hlen, hgq, hmmulti, hmnotsolo, hchk, hst1, hcorr, hupd, hcureq,
            hadv4, hflag, h4, advanceState_scores, hq3s, hbump]
        · rcases stop_split chat true now st4 (advanceState qs3) h4 with
            ⟨hfail, hsame2⟩ | ⟨hok, lb, hdone⟩
          · simp [process_answer, load_quiz_state, halg, is_quiz_active_eq chat st qs halg,
              hact, hneg, hlen, hgq, hmmulti, hmnotsolo, hchk, hst1, hcorr, hupd, hcureq,
              hadv4, hflag, hsame2, h4, advanceState_scores, hq3s, hbump]
          · have hnone : alGet (alRemove st4.sessions chat) chat = none :=
              alGet_alRemove_self st4.sessions chat hwf4
            have hgl := get_leaderboard_data_eq chat st4 (advanceState qs3) h4
            simp [process_answer, load_quiz_state, halg, is_quiz_active_eq chat st qs halg,
              hact, hneg, hlen, hgq, hmmulti, hmnotsolo, hchk, hst1, hcorr, hupd, hcureq,
              hadv4, hflag, hok, hdone, hnone, hgl, advanceState_scores, hq3s, hbump]
      · have hcureq : (idx == (qs.current_question : Int)) = false := by
          simp [hcur]
        simp [process_answer, load_quiz_state, halg, is_quiz_active_eq chat st qs halg,
          hact, hneg, hlen, hgq, hmmulti, hmnotsolo, hchk, hst1, hcorr, hupd, hcureq,
          h2, hq2s, hbump]
    · simp [process_answer, load_quiz_state, halg, is_quiz_active_eq chat st qs halg,
        hact, hneg, hlen, hgq, hmmulti, hmnotsolo, hchk, hst1, hcorr, h1, hAscores, hbump]
  · have hmf : (qs.mode == "multi") = false := by
      simp [hm1]
    by_cases hm2 : qs.mode = "solo"
    · -- solo mode: no attempt bookkeeping, advancement decided by the creator
      have hms : (qs.mode == "solo") = true := by
        rw [hm2]
        decide
      by_cases hcorr : (pyStrip ans == pyStrip q0.correct_answer) = true
      · obtain ⟨st2, hupd, h2pre, hwf2⟩ :
            ∃ s, update_scores chat user uname 1 true st = .ok s
              ∧ alGet s.sessions chat
                  = some { qs with scores := bumpScore qs.scores user uname 1 }
              ∧ sessionsWF s :=
          ⟨_, upd_eq chat user uname 1 st qs halg, alGet_alSet_self _ _ _,
            nodup_alSet _ _ _ hwf⟩
        obtain ⟨qs2, hqs2⟩ :
            ∃ x, ({ qs with scores := bumpScore qs.scores user uname 1 } : QuizState) = x :=
          ⟨_, rfl⟩
        rw [hqs2] at h2pre
        have h2 : alGet st2.sessions chat = some qs2 := h2pre
        have hq2s : qs2.scores = bumpScore qs.scores user uname 1 := by
          rw [← hqs2]
        by_cases hsa : (qs.creator_id == some user) = true
        · by_cases hcur : idx = (qs.current_question : Int)
          · have hcureq : (idx == (qs.current_question : Int)) = true := by
              simp [hcur]
            obtain ⟨qs3, hqs3⟩ : ∃ x, answerMark qs2 idx ans = x := ⟨_, rfl⟩
            have h3 : alGet (mark_question_answered chat idx ans true st2).2.sessions chat
                = some qs3 := by
              rw [← hqs3]
              exact mqa_get chat idx ans st2 qs2 h2
            have hwf3 : sessionsWF (mark_question_answered chat idx ans true st2).2 :=
              mqa_wf chat idx ans true st2 hwf2
            have hq3s : qs3.scores = bumpScore qs.scores user uname 1 := by
              rw [← hqs3, answerMark_scores]
              exact hq2s
            obtain ⟨st4, hst4⟩ :
                ∃ s : Store,
                  ({ (mark_question_answered chat idx ans true st2).2 with
                      sessions := alSet
                        (mark_question_answered chat idx ans true st2).2.sessions chat
                        (advanceState qs3) } : Store) = s :=
              ⟨_, rfl⟩
            have hadv4 : advance_to_next_question chat true
                  (mark_question_answered chat idx ans true st2).2
                = (decide (qs3.current_question + 1 < qs3.questions.length), st4) := by
              rw [← hst4]
              exact adv_eq chat _ qs3 h3
            have h4 : alGet st4.sessions chat = some (advanceState qs3) := by
              rw [← hst4]
              exact alGet_alSet_self _ _ _
            have hwf4 : sessionsWF st4 := by
              rw [← hst4]
              exact nodup_alSet _ _ _ hwf3
            by_cases hflag : qs3.current_question + 1 < qs3.questions.length
            · simp [process_answer, load_quiz_state, halg,
                is_quiz_active_eq chat st qs halg, hact, hneg, hlen, hgq, hmf, hms, hsa,
                hcorr, hupd, hcureq, hadv4, hflag, h4, advanceState_scores, hq3s, hbump]
            · rcases stop_split chat true now st4 (advanceState qs3) h4 with
                ⟨hfail, hsame2⟩ | ⟨hok, lb, hdone⟩
              · simp [process_answer, load_quiz_state, halg,
                  is_quiz_active_eq chat st qs halg, hact, hneg, hlen, hgq, hmf, hms, hsa,
                  hcorr, hupd, hcureq, hadv4, hflag, hsame2, h4, advanceState_scores,
                  hq3s, hbump]
              · have hnone : alGet (alRemove st4.sessions chat) chat = none :=
                  alGet_alRemove_self st4.sessions chat hwf4
                have hgl := get_leaderboard_data_eq chat st4 (advanceState qs3) h4
                simp [process_answer, load_quiz_state, halg,
                  is_quiz_active_eq chat st qs halg, hact, hneg, hlen, hgq, hmf, hms, hsa,
                  hcorr, hupd, hcureq, hadv4, hflag, hok, hdone, hnone, hgl,
                  advanceState_scores, hq3s, hbump]
          · have hcureq : (idx == (qs.current_question : Int)) = false := by
              simp [hcur]
            simp [process_answer, load_quiz_state, halg, is_quiz_active_eq chat st qs halg,
              hact, hneg, hlen, hgq, hmf, hms, hsa, hcorr, hupd, hcureq, h2, hq2s, hbump]
        · simp [process_answer, load_quiz_state, halg, is_quiz_active_eq chat st qs halg,
            hact, hneg, hlen, hgq, hmf, hms, hsa, hcorr, hupd, h2, hq2s, hbump]
      · by_cases hsa : (qs.creator_id == some user) = true
        · by_cases hcur : idx = (qs.current_question : Int)
          · have hcureq : (idx == (qs.current_question : Int)) = true := by
              simp [hcur]
            obtain ⟨qs3, hqs3⟩ : ∃ x, answerMark qs idx ans = x := ⟨_, rfl⟩
            have h3 : alGet (mark_question_answered chat idx ans true st).2.sessions chat
                = some qs3 := by
              rw [← hqs3]
              exact mqa_get chat idx ans st qs halg
            have hwf3 : sessionsWF (mark_question_answered chat idx ans true st).2 :=
              mqa_wf chat idx ans true st hwf
            have hq3s : qs3.scores = qs.scores := by
              rw [← hqs3, answerMark_scores]
            obtain ⟨st4, hst4⟩ :
                ∃ s : Store,
                  ({ (mark_question_answered chat idx ans true st).2 with
                      sessions := alSet
                        (mark_question_answered chat idx ans true st).2.sessions chat
                        (advanceState qs3) } : Store) = s :=
              ⟨_, rfl⟩
            have hadv4 : advance_to_next_question chat true
                  (mark_question_answered chat idx ans true st).2
                = (decide (qs3.current_question + 1 < qs3.questions.length), st4) := by
              rw [← hst4]
              exact adv_eq chat _ qs3 h3
            have h4 : alGet st4.sessions chat = some (advanceState qs3) := by
              rw [← hst4]
              exact alGet_alSet_self _ _ _
            have hwf4 : sessionsWF st4 := by
              rw [← hst4]
              exact nodup_alSet _ _ _ hwf3
            by_cases hflag : qs3.current_question + 1 < qs3.questions.length
            · simp [process_answer, load_quiz_state, halg,
                is_quiz_active_eq chat st qs halg, hact, hneg, hlen, hgq, hmf, hms, hsa,
                hcorr, hcureq, hadv4, hflag, h4, advanceState_scores, hq3s, hbump]
            · rcases stop_split chat true now st4 (advanceState qs3) h4 with
                ⟨hfail, hsame2⟩ | ⟨hok, lb, hdone⟩
              · simp [process_answer, load_quiz_state, halg,
                  is_quiz_active_eq chat st qs halg, hact, hneg, hlen, hgq, hmf, hms, hsa,
                  hcorr, hcureq, hadv4, hflag, hsame2, h4, advanceState_scores, hq3s,
                  hbump]
              · have hnone : alGet (alRemove st4.sessions chat) chat = none :=
                  alGet_alRemove_self st4.sessions chat hwf4
                have hgl := get_leaderboard_data_eq chat st4 (advanceState qs3) h4
                simp [process_answer, load_quiz_state, halg,
                  is_quiz_active_eq chat st qs halg, hact, hneg, hlen, hgq, hmf, hms, hsa,
                  hcorr, hcureq, hadv4, hflag, hok, hdone, hnone, hgl,
                  advanceState_scores, hq3s, hbump]
          · have hcureq : (idx == (qs.current_question : Int)) = false := by
              simp [hcur]
            simp [process_answer, load_quiz_state, halg, is_quiz_active_eq chat st qs halg,
              hact, hneg, hlen, hgq, hmf, hms, hsa, hcorr, hcureq, hbump]
        · simp [process_answer, load_quiz_state, halg, is_quiz_active_eq chat st qs halg,
            hact, hneg, hlen, hgq, hmf, hms, hsa, hcorr, hbump]
    · -- any other mode string: never advances
      have hms : (qs.mode == "solo") = false := by
        simp [hm2]
      by_cases hcorr : (pyStrip ans == pyStrip q0.correct_answer) = true
      · obtain ⟨st2, hupd, h2pre, hwf2⟩ :
            ∃ s, update_scores chat user uname 1 true st = .ok s
              ∧ alGet s.sessions chat
                  = some { qs with scores := bumpScore qs.scores user uname 1 }
              ∧ sessionsWF s :=
          ⟨_, upd_eq chat user uname 1 st qs halg, alGet_alSet_self _ _ _,
            nodup_alSet _ _ _ hwf⟩
        obtain ⟨qs2, hqs2⟩ :
            ∃ x, ({ qs with scores := bumpScore qs.scores user uname 1 } : QuizState) = x :=
          ⟨_, rfl⟩
        rw [hqs2] at h2pre
        have h2 : alGet st2.sessions chat = some qs2 := h2pre
        have hq2s : qs2.scores = bumpScore qs.scores user uname 1 := by
          rw [← hqs2]
        simp [process_answer, load_quiz_state, halg, is_quiz_active_eq chat st qs halg,
          hact, hneg, hlen, hgq, hmf, hms, hcorr, hupd, h2, hq2s, hbump]
      · simp [process_answer, load_quiz_state, halg, is_quiz_active_eq chat st qs halg,
          hact, hneg, hlen, hgq, hmf, hms, hcorr, hbump]

/-- C6 witness: on the live multi fixture the reported correctness is the
stripped-string comparison. -/
theorem C6_witness :
    (process_answer 3 10 "alice" 0 "4" "t1" fxStLive).1.is_correct
      = some (pyStrip "4" == pyStrip fxQ.correct_answer) := by
  exact (C6_amended_stripped_equality_scoring fxStLive 3 10 "alice" 0 "4" "t1"
    fxSessLive fxQ (by unfold sessionsWF; decide) (by decide) (by decide) (by decide)
    (by decide) (by decide) (by decide)).2.1
